import Mathlib

/-!
Formal model of the Milvus GIS query implementations in
`src/spatialbench-queries/milvus_queries.py` (sedona-spatialbench).

Modelling conventions:

* Geometric values (Shapely geometries / Milvus GEOMETRY columns) are an
  abstract type `G`; all geometric predicates and metrics that the Python code
  delegates to the Shapely library or to the Milvus backend (`contains`,
  `intersects`, `GEOM_DWITHIN`, `distance`, `area`, `intersection(..).area`,
  point coordinate access) are fields of a `Geo G` interface.  The fixed WKT
  literals appearing in the source (the Sedona city-center point, the q3 box,
  the q6 bounding box) are likewise fields of the interface, since parsing WKT
  is external.  Every theorem below quantifies over the interface.
* Python floats are modelled as exact rationals `ℚ`; the claims under
  verification are about branch structure, ordering and aggregation shape,
  not float rounding.
* Timestamp strings (`t_pickuptime`, `t_dropofftime`), which the Python code
  converts with `pd.to_datetime` and subtracts to obtain a duration in
  seconds, are modelled as integers (seconds); `dt.total_seconds()` of the
  difference is integer subtraction.  The month truncation
  `dt.to_period("M").dt.to_timestamp()` is the abstract `Geo.monthOf`.
* A Milvus collection is a list of rows; the list order models the order in
  which the backend returns rows for a query (`MilvusClient.query` promises
  no particular order and the loader inserts rows in file order, so no
  ordering assumption is built in).  `client.query(collection, filter,
  output_fields, limit)` is modelled by `fetch`: filter then truncate to
  `limit` rows.
* Each query function returns `(result, fetchedCollections)`: the second
  component is the ordered list of collections actually fetched from the
  backend during the call, used to state the fail-fast property of the
  unsupported queries (which in the source raise `NotImplementedError`
  before `_get_runner` is ever called).
* `pandas.DataFrame.sort_values` with a list of keys is a stable
  lexicographic sort (`numpy.lexsort`); it is modelled by a stable insertion
  sort under a total preorder obtained from a lexicographic sort key.
  Descending keys are modelled by negation, `na_position="last"` by a
  leading flag component.
-/

/-- Geometry and backend-predicate interface.  Each field corresponds to an
operation the Python source performs through Shapely or through a Milvus
filter expression; the source of each is noted inline. -/
structure Geo (G : Type) where
  /-- Shapely `polygon.contains(point)` (q4 line 269, q6 line 349, q10 line 579,
  q11 line 653). -/
  contains : G → G → Bool
  /-- Shapely `geom1.intersects(geom2)` (q9 line 493) and the Milvus filter
  `GEOM_INTERSECTS(field, wkt)` (q2 line 159, q6 line 310). -/
  intersects : G → G → Bool
  /-- Milvus filter `GEOM_DWITHIN(field, wkt, radius)` (q1 line 106, q3 line 184). -/
  dwithin : G → G → ℚ → Bool
  /-- Shapely `a.distance(b)` (q1 line 126, q8 line 436). -/
  dist : G → G → ℚ
  /-- Shapely `geom.area` (q9 lines 494-495). -/
  area : G → ℚ
  /-- Shapely `geom1.intersection(geom2).area` (q9 lines 496-497). -/
  interArea : G → G → ℚ
  /-- Shapely point `.x` (q1 line 124). -/
  ptX : G → ℚ
  /-- Shapely point `.y` (q1 line 125). -/
  ptY : G → ℚ
  /-- Pandas `dt.to_period("M").dt.to_timestamp()` month truncation (q3 line 205). -/
  monthOf : Int → Int
  /-- WKT literal `POINT(-111.7610 34.8697)` (q1 lines 102, 119). -/
  sedonaCenter : G
  /-- WKT literal box polygon of q3 (line 181). -/
  q3Box : G
  /-- WKT literal bounding-box polygon of q6 (line 307). -/
  q6Bbox : G

/-- Row of the `trip` collection (schema from `milvus_data_loader.py`,
restricted to the fields the queries read). -/
structure Trip (G : Type) where
  t_tripkey : Int
  t_pickuploc : G
  t_dropoffloc : G
  t_pickuptime : Int
  t_dropofftime : Int
  t_distance : ℚ
  t_fare : ℚ
  t_tip : ℚ
  t_totalamount : ℚ
deriving DecidableEq

/-- Row of the `zone` collection. -/
structure Zone (G : Type) where
  z_zonekey : Int
  z_name : String
  z_boundary : G
deriving DecidableEq

/-- Row of the `building` collection. -/
structure Building (G : Type) where
  b_buildingkey : Int
  b_name : String
  b_boundary : G
deriving DecidableEq

/-- The three collections a query run sees, each in the order the backend
returns its rows. -/
structure DB (G : Type) where
  trip : List (Trip G)
  zone : List (Zone G)
  building : List (Building G)
deriving DecidableEq

/-- Model of `MilvusClient.query(collection, filter, output_fields, limit)`:
rows satisfying the filter, truncated to `limit`. -/
def fetch {α : Type} (rows : List α) (p : α → Bool) (limit : ℕ) : List α :=
  (rows.filter p).take limit

/-- Error outcome of a query call.  The unsupported queries q5/q7/q12 raise
Python `NotImplementedError` with a message naming the missing spatial
primitives (the design-level `UnsupportedQueryError` of the spec); the
constructor carries those primitive names. -/
inductive QErr where
  | unsupportedQuery (missing : List String)
deriving DecidableEq

/-- Result of one query call: the rows (or the error), together with the
ordered list of backend collections fetched during the call. -/
abbrev QOut (ρ : Type) := Except QErr (List ρ) × List String

/-- Rows of a successful call (empty list if the call failed). -/
def okRows {ρ : Type} : QOut ρ → List ρ
  | (Except.ok l, _) => l
  | (Except.error _, _) => []

/-- Mean of a list of numbers, `pandas` `.mean()` over a non-empty group. -/
def listMean (l : List ℚ) : ℚ := l.sum / l.length

section SortMachinery

variable {α : Type} {κ : Type} [LinearOrder κ]

/-- Total preorder induced by a sort key. -/
@[reducible] def keyLe (key : α → κ) (a b : α) : Prop := key a ≤ key b

instance keyLeDecidable (key : α → κ) : DecidableRel (keyLe key) :=
  fun a b => inferInstanceAs (Decidable (key a ≤ key b))

instance keyLeIsTotal (key : α → κ) : IsTotal α (keyLe key) :=
  ⟨fun a b => le_total (key a) (key b)⟩

instance keyLeIsTrans (key : α → κ) : IsTrans α (keyLe key) :=
  ⟨fun _ _ _ h1 h2 => le_trans h1 h2⟩

/-- Model of `DataFrame.sort_values` with a multi-column key: a stable sort
under the total preorder of the lexicographic key. -/
def sortBy (key : α → κ) (l : List α) : List α :=
  List.insertionSort (keyLe key) l

theorem sortBy_sorted (key : α → κ) (l : List α) :
    List.Sorted (keyLe key) (sortBy key l) :=
  List.sorted_insertionSort (keyLe key) l

theorem sortBy_perm (key : α → κ) (l : List α) :
    List.Perm (sortBy key l) l :=
  List.perm_insertionSort (keyLe key) l

end SortMachinery

/-- Output row of q1 (line 115). -/
structure Q1Row where
  t_tripkey : Int
  pickup_lon : ℚ
  pickup_lat : ℚ
  t_pickuptime : Int
  distance_to_center : ℚ
deriving DecidableEq

/-- Output row of q2 (line 168). -/
structure Q2Row where
  trip_count_in_coconino_county : ℕ
deriving DecidableEq

/-- Output row of q3 (line 193). -/
structure Q3Row where
  pickup_month : Int
  total_trips : ℕ
  avg_distance : ℚ
  avg_duration : ℚ
  avg_fare : ℚ
deriving DecidableEq

/-- Output row of q4 (line 240). -/
structure Q4Row where
  z_zonekey : Int
  z_name : String
  trip_count : ℕ
deriving DecidableEq

/-- Output row of q6 (line 319). -/
structure Q6Row where
  z_zonekey : Int
  z_name : String
  total_pickups : ℕ
  avg_distance : ℚ
  avg_duration : ℚ
deriving DecidableEq

/-- Output row of q8 (line 405). -/
structure Q8Row where
  b_buildingkey : Int
  b_name : String
  nearby_pickup_count : ℕ
deriving DecidableEq

/-- Output row of q9 (lines 507-514). -/
structure Q9Row where
  building_1 : Int
  building_2 : Int
  area1 : ℚ
  area2 : ℚ
  overlap_area : ℚ
  iou : ℚ
deriving DecidableEq

/-- Output row of q10 (lines 584-598).  The NaN aggregates of a zone with no
matching trips are modelled as `Option.none`. -/
structure Q10Row where
  z_zonekey : Int
  pickup_zone : String
  avg_duration : Option ℚ
  avg_distance : Option ℚ
  num_trips : ℕ
deriving DecidableEq

/-- Output row of q11 (line 669). -/
structure Q11Row where
  cross_zone_trip_count : ℕ
deriving DecidableEq

/-- Sort key of q1 line 129: `["distance_to_center", "t_tripkey"]`,
ascending both. -/
def q1Key (r : Q1Row) : Lex (ℚ × Int) :=
  toLex (r.distance_to_center, r.t_tripkey)

/-- Sort key of q3 line 215: `"pickup_month"` ascending. -/
def q3Key (r : Q3Row) : Int := r.pickup_month

/-- Sort key of q4 line 281: `["trip_count", "z_zonekey"]`, descending then
ascending (descending modelled by negation). -/
def q4Key (r : Q4Row) : Lex (Int × Int) :=
  toLex (-(r.trip_count : Int), r.z_zonekey)

/-- Sort key of the client-side top-1000 selection in q4 lines 243-245:
`["t_tip", "t_tripkey"]`, descending then ascending. -/
def q4TripKey {G : Type} (t : Trip G) : Lex (ℚ × Int) :=
  toLex (-t.t_tip, t.t_tripkey)

/-- Sort key of q6 line 371: `["total_pickups", "z_zonekey"]`, descending then
ascending. -/
def q6Key (r : Q6Row) : Lex (Int × Int) :=
  toLex (-(r.total_pickups : Int), r.z_zonekey)

/-- Sort key of q8 line 449: `["nearby_pickup_count", "b_buildingkey"]`,
descending then ascending. -/
def q8Key (r : Q8Row) : Lex (Int × Int) :=
  toLex (-(r.nearby_pickup_count : Int), r.b_buildingkey)

/-- Sort key of q9 line 520: `["iou", "building_1", "building_2"]`, descending
then ascending, ascending. -/
def q9Key (r : Q9Row) : Lex (ℚ × Lex (Int × Int)) :=
  toLex (-r.iou, toLex (r.building_1, r.building_2))

/-- Leading component of the q10 sort key: `na_position="last"` puts the NaN
rows after every non-NaN row, and the non-NaN rows are ordered by value
descending. -/
def durOrd (o : Option ℚ) : Lex (ℕ × ℚ) :=
  match o with
  | none => toLex (1, 0)
  | some d => toLex (0, -d)

/-- Sort key of q10 line 601: `["avg_duration", "z_zonekey"]`,
`ascending=[False, True]`, `na_position="last"`. -/
def q10Key (r : Q10Row) : Lex (Lex (ℕ × ℚ) × Int) :=
  toLex (durOrd r.avg_duration, r.z_zonekey)

/-- Q1 (lines 94-135): trips starting within 0.45 degrees of the Sedona city
center, with client-side coordinates and distance, sorted by distance then
trip key. -/
def q1 {G : Type} (ctx : Geo G) (db : DB G) : QOut Q1Row :=
  let results := fetch db.trip
    (fun t => ctx.dwithin t.t_pickuploc ctx.sedonaCenter (45/100)) 1000000
  if results.isEmpty then (Except.ok [], ["trip"])
  else
    (Except.ok (sortBy q1Key (results.map (fun t =>
      { t_tripkey := t.t_tripkey
        pickup_lon := ctx.ptX t.t_pickuploc
        pickup_lat := ctx.ptY t.t_pickuploc
        t_pickuptime := t.t_pickuptime
        distance_to_center := ctx.dist t.t_pickuploc ctx.sedonaCenter }))),
     ["trip"])

/-- Q2 (lines 138-170): fetch the zone named 'Coconino County' (limit 1, so
the first matching row in backend order); if absent, a single zero row;
otherwise count the trips whose pickup the backend reports as intersecting
that zone's boundary. -/
def q2 {G : Type} (ctx : Geo G) (db : DB G) : QOut Q2Row :=
  let zone_results := fetch db.zone (fun z => z.z_name == "Coconino County") 1
  match zone_results with
  | [] => (Except.ok [{ trip_count_in_coconino_county := 0 }], ["zone"])
  | z :: _ =>
    let results := fetch db.trip
      (fun t => ctx.intersects t.t_pickuploc z.z_boundary) 10000000
    (Except.ok [{ trip_count_in_coconino_county := results.length }],
     ["zone", "trip"])

/-- Q3 (lines 173-221): monthly statistics of the trips within the buffered
q3 box; `groupby("pickup_month")` is modelled as grouping by the distinct
month values, and the result is sorted by month. -/
def q3 {G : Type} (ctx : Geo G) (db : DB G) : QOut Q3Row :=
  let results := fetch db.trip
    (fun t => ctx.dwithin t.t_pickuploc ctx.q3Box (45/1000)) 10000000
  if results.isEmpty then (Except.ok [], ["trip"])
  else
    let months := (results.map (fun t => ctx.monthOf t.t_pickuptime)).dedup
    let rows := months.map (fun m =>
      let grp := results.filter (fun t => ctx.monthOf t.t_pickuptime == m)
      { pickup_month := m
        total_trips := grp.length
        avg_distance := listMean (grp.map (fun t => t.t_distance))
        avg_duration :=
          listMean (grp.map (fun t => ((t.t_dropofftime - t.t_pickuptime : Int) : ℚ)))
        avg_fare := listMean (grp.map (fun t => t.t_fare)) })
    (Except.ok (sortBy q3Key rows), ["trip"])

/-- Client-side top-1000 selection of q4 lines 243-245: sort all fetched trips
by tip descending with trip key ascending as tie-break, take the first 1000. -/
def q4TopTrips {G : Type} (l : List (Trip G)) : List (Trip G) :=
  (sortBy q4TripKey l).take 1000

/-- Count of the points of `pts` contained in `zoneGeom` (q4 line 269). -/
def zoneContainCount {G : Type} (ctx : Geo G) (zoneGeom : G) (pts : List G) : ℕ :=
  (pts.filter (fun p => ctx.contains zoneGeom p)).length

/-- Q4 (lines 224-285): zone distribution of the top-1000 trips by tip; zones
with no contained top trip are omitted (count > 0 guard, line 270). -/
def q4 {G : Type} (ctx : Geo G) (db : DB G) : QOut Q4Row :=
  let trip_results := fetch db.trip (fun _ => true) 10000000
  if trip_results.isEmpty then (Except.ok [], ["trip"])
  else
    let top_trips := q4TopTrips trip_results
    let zone_results := fetch db.zone (fun _ => true) 100000
    if zone_results.isEmpty then (Except.ok [], ["trip", "zone"])
    else
      let rows := zone_results.filterMap (fun z =>
        let count := zoneContainCount ctx z.z_boundary
          (top_trips.map (fun t => t.t_pickuploc))
        if 0 < count then
          some { z_zonekey := z.z_zonekey, z_name := z.z_name, trip_count := count }
        else none)
      (Except.ok (sortBy q4Key rows), ["trip", "zone"])

/-- Q5 (lines 288-296): unsupported; raises before any backend interaction,
naming the missing primitives. -/
def q5 {G : Type} (_ctx : Geo G) (_db : DB G) : QOut Unit :=
  (Except.error (QErr.unsupportedQuery ["ST_ConvexHull", "ST_Collect", "ST_Area"]), [])

/-- Q6 (lines 299-375): statistics per zone intersecting the q6 bounding box;
zones with no matching trip are omitted (len > 0 guard, line 352).  The
averaged distance column is `t_totalamount` (line 354: the source prefers
`t_totalamount` when present, and it is always fetched). -/
def q6 {G : Type} (ctx : Geo G) (db : DB G) : QOut Q6Row :=
  let zone_results := fetch db.zone
    (fun z => ctx.intersects z.z_boundary ctx.q6Bbox) 100000
  if zone_results.isEmpty then (Except.ok [], ["zone"])
  else
    let trip_results := fetch db.trip (fun _ => true) 10000000
    if trip_results.isEmpty then (Except.ok [], ["zone", "trip"])
    else
      let rows := zone_results.filterMap (fun z =>
        let matching := trip_results.filter
          (fun t => ctx.contains z.z_boundary t.t_pickuploc)
        if 0 < matching.length then
          some { z_zonekey := z.z_zonekey
                 z_name := z.z_name
                 total_pickups := matching.length
                 avg_distance := listMean (matching.map (fun t => t.t_totalamount))
                 avg_duration := listMean (matching.map
                   (fun t => ((t.t_dropofftime - t.t_pickuptime : Int) : ℚ))) }
        else none)
      (Except.ok (sortBy q6Key rows), ["zone", "trip"])

/-- Q7 (lines 378-386): unsupported; raises before any backend interaction. -/
def q7 {G : Type} (_ctx : Geo G) (_db : DB G) : QOut Unit :=
  (Except.error (QErr.unsupportedQuery ["ST_MakeLine", "ST_Length"]), [])

/-- Q8 (lines 389-453): per building, the number of pickups within 0.0045
degrees of its boundary; buildings with count 0 are omitted (line 438). -/
def q8 {G : Type} (ctx : Geo G) (db : DB G) : QOut Q8Row :=
  let building_results := fetch db.building (fun _ => true) 1000000
  if building_results.isEmpty then (Except.ok [], ["building"])
  else
    let trip_results := fetch db.trip (fun _ => true) 10000000
    if trip_results.isEmpty then (Except.ok [], ["building", "trip"])
    else
      let rows := building_results.filterMap (fun b =>
        let count := (trip_results.filter
          (fun t => ctx.dist t.t_pickuploc b.b_boundary ≤ 45/10000)).length
        if 0 < count then
          some { b_buildingkey := b.b_buildingkey
                 b_name := b.b_name
                 nearby_pickup_count := count }
        else none)
      (Except.ok (sortBy q8Key rows), ["building", "trip"])

/-- Unordered-pair enumeration of q9 lines 486-487: the double loop
`for i in range(n): for j in range(i+1, n)` in exactly that order. -/
def pairsUpper {α : Type} : List α → List (α × α)
  | [] => []
  | x :: xs => xs.map (fun y => (x, y)) ++ pairsUpper xs

/-- Row construction of q9 lines 494-514 for one intersecting pair, including
the three-way IoU branch of lines 500-505. -/
def q9Row {G : Type} (ctx : Geo G) (b1 b2 : Building G) : Q9Row :=
  let area1 := ctx.area b1.b_boundary
  let area2 := ctx.area b2.b_boundary
  let overlap_area := ctx.interArea b1.b_boundary b2.b_boundary
  let union_area := area1 + area2 - overlap_area
  let iou :=
    if 0 < union_area then overlap_area / union_area
    else if 0 < overlap_area then 1
    else 0
  { building_1 := b1.b_buildingkey
    building_2 := b2.b_buildingkey
    area1 := area1
    area2 := area2
    overlap_area := overlap_area
    iou := iou }

/-- Q9 (lines 456-524): building conflation; for every pair of positions
i < j in the fetched building list whose boundaries intersect, one row with
the client-side IoU, sorted by IoU descending then the two key columns. -/
def q9 {G : Type} (ctx : Geo G) (db : DB G) : QOut Q9Row :=
  let building_results := fetch db.building (fun _ => true) 1000000
  if building_results.isEmpty then (Except.ok [], ["building"])
  else
    let rows := (pairsUpper building_results).filterMap (fun p =>
      if ctx.intersects p.1.b_boundary p.2.b_boundary then
        some (q9Row ctx p.1 p.2)
      else none)
    (Except.ok (sortBy q9Key rows), ["building"])

/-- Per-zone row of q10 lines 577-598: statistics when at least one trip's
pickup is contained in the zone, otherwise the zone row with NaN aggregates
and 0 trips. -/
def q10RowOf {G : Type} (ctx : Geo G) (trips : List (Trip G)) (z : Zone G) : Q10Row :=
  let matching := trips.filter (fun t => ctx.contains z.z_boundary t.t_pickuploc)
  if 0 < matching.length then
    { z_zonekey := z.z_zonekey
      pickup_zone := z.z_name
      avg_duration := some (listMean (matching.map
        (fun t => ((t.t_dropofftime - t.t_pickuptime : Int) : ℚ))))
      avg_distance := some (listMean (matching.map (fun t => t.t_distance)))
      num_trips := matching.length }
  else
    { z_zonekey := z.z_zonekey
      pickup_zone := z.z_name
      avg_duration := none
      avg_distance := none
      num_trips := 0 }

/-- Q10 (lines 527-605): left-join zone statistics; every fetched zone yields
one row, zones without matching trips keep NaN aggregates (lines 591-598, and
the dedicated empty-trip branch of lines 559-568). -/
def q10 {G : Type} (ctx : Geo G) (db : DB G) : QOut Q10Row :=
  let zone_results := fetch db.zone (fun _ => true) 1000000
  if zone_results.isEmpty then (Except.ok [], ["zone"])
  else
    let trip_results := fetch db.trip (fun _ => true) 10000000
    if trip_results.isEmpty then
      (Except.ok (sortBy q10Key (zone_results.map (fun z =>
        { z_zonekey := z.z_zonekey
          pickup_zone := z.z_name
          avg_duration := none
          avg_distance := none
          num_trips := 0 }))), ["zone", "trip"])
    else
      (Except.ok (sortBy q10Key (zone_results.map (q10RowOf ctx trip_results))),
       ["zone", "trip"])

/-- First-matching-zone assignment of q11 lines 650-655: scan the fetched
zone list in order and return the key of the first zone containing the
point. -/
def findZone {G : Type} (ctx : Geo G) (zones : List (Zone G)) (p : G) : Option Int :=
  match zones with
  | [] => none
  | z :: zs => if ctx.contains z.z_boundary p then some z.z_zonekey else findZone ctx zs p

/-- Q11 (lines 608-671): count of trips whose pickup and dropoff fall in two
different assigned zones (both assignments non-null). -/
def q11 {G : Type} (ctx : Geo G) (db : DB G) : QOut Q11Row :=
  let zone_results := fetch db.zone (fun _ => true) 1000000
  if zone_results.isEmpty then
    (Except.ok [{ cross_zone_trip_count := 0 }], ["zone"])
  else
    let trip_results := fetch db.trip (fun _ => true) 10000000
    if trip_results.isEmpty then
      (Except.ok [{ cross_zone_trip_count := 0 }], ["zone", "trip"])
    else
      let count := (trip_results.filter (fun t =>
        (findZone ctx zone_results t.t_pickuploc).isSome &&
        (findZone ctx zone_results t.t_dropoffloc).isSome &&
        decide (findZone ctx zone_results t.t_pickuploc ≠
                findZone ctx zone_results t.t_dropoffloc))).length
      (Except.ok [{ cross_zone_trip_count := count }], ["zone", "trip"])

/-- Q12 (lines 674-682): unsupported; raises before any backend interaction. -/
def q12 {G : Type} (_ctx : Geo G) (_db : DB G) : QOut Unit :=
  (Except.error (QErr.unsupportedQuery ["ST_KNN"]), [])

/-! Concrete geometry of axis-aligned boxes and points, used to instantiate
the abstract interface in witnesses and counterexamples.  A point is treated
as a degenerate box.  Only the interface shape matters for the theorems,
which quantify over every `Geo` instance. -/

/-- Concrete geometry values: points and axis-aligned boxes. -/
inductive BoxGeom where
  | pt (x y : ℚ)
  | box (x1 y1 x2 y2 : ℚ)
deriving DecidableEq

/-- Left x coordinate (the x coordinate for a point). -/
def bgX1 : BoxGeom → ℚ
  | BoxGeom.pt x _ => x
  | BoxGeom.box x1 _ _ _ => x1

/-- Bottom y coordinate. -/
def bgY1 : BoxGeom → ℚ
  | BoxGeom.pt _ y => y
  | BoxGeom.box _ y1 _ _ => y1

/-- Right x coordinate. -/
def bgX2 : BoxGeom → ℚ
  | BoxGeom.pt x _ => x
  | BoxGeom.box _ _ x2 _ => x2

/-- Top y coordinate. -/
def bgY2 : BoxGeom → ℚ
  | BoxGeom.pt _ y => y
  | BoxGeom.box _ _ _ y2 => y2

/-- Chebyshev gap between two boxes (0 when they touch or overlap): a simple
exactly-computable stand-in for Shapely's Euclidean distance in witness
contexts. -/
def bgGap (a b : BoxGeom) : ℚ :=
  max (max (bgX1 a - bgX2 b) (bgX1 b - bgX2 a))
    (max (max (bgY1 a - bgY2 b) (bgY1 b - bgY2 a)) 0)

/-- Witness instantiation of the geometry interface on axis-aligned boxes.
`contains` is strict-interior containment (matching the boundary policy of
Shapely's `contains`); `intersects` is closed-box overlap; `interArea` is the
exact overlap-rectangle area.  The three constant geometries stand in for the
source's WKT literals, whose actual parsing is external. -/
def boxGeo : Geo BoxGeom where
  contains := fun a b => decide
    (bgX1 a < bgX1 b ∧ bgX1 b < bgX2 a ∧ bgY1 a < bgY1 b ∧ bgY1 b < bgY2 a)
  intersects := fun a b => decide
    (bgX1 a ≤ bgX2 b ∧ bgX1 b ≤ bgX2 a ∧ bgY1 a ≤ bgY2 b ∧ bgY1 b ≤ bgY2 a)
  dwithin := fun a b r => decide (bgGap a b ≤ r)
  dist := fun a b => bgGap a b
  area := fun a => (bgX2 a - bgX1 a) * (bgY2 a - bgY1 a)
  interArea := fun a b =>
    max 0 (min (bgX2 a) (bgX2 b) - max (bgX1 a) (bgX1 b)) *
      max 0 (min (bgY2 a) (bgY2 b) - max (bgY1 a) (bgY1 b))
  ptX := bgX1
  ptY := bgY1
  monthOf := fun t => t
  sedonaCenter := BoxGeom.pt 0 0
  q3Box := BoxGeom.box (-10) (-10) 10 10
  q6Bbox := BoxGeom.box (-100) (-100) 100 100

/-! Point-in-polygon containment.  The Python source delegates
`polygon.contains(point)` to the external Shapely library, whose code is not
part of this repository; spec section 4.2 fixes its contract.  The following
definitions are therefore modelled from the spec: a standard ray-casting
(even-odd crossing) test over the polygon's closed vertex ring, with points
exactly on the boundary treated as not contained. -/

/-- Consecutive-vertex edges of a ring. -/
def segEdges : List (ℚ × ℚ) → List ((ℚ × ℚ) × (ℚ × ℚ))
  | [] => []
  | [_] => []
  | a :: b :: rest => (a, b) :: segEdges (b :: rest)

/-- Modelled from the spec: exact test for a point lying on the closed
segment from `a` to `b` (zero cross product and coordinates within the
bounding interval). -/
def onSeg (a b p : ℚ × ℚ) : Bool :=
  decide ((b.1 - a.1) * (p.2 - a.2) - (b.2 - a.2) * (p.1 - a.1) = 0) &&
  decide (min a.1 b.1 ≤ p.1 ∧ p.1 ≤ max a.1 b.1) &&
  decide (min a.2 b.2 ≤ p.2 ∧ p.2 ≤ max a.2 b.2)

/-- Modelled from the spec: the point lies on the polygon's boundary. -/
def onRing (ring : List (ℚ × ℚ)) (p : ℚ × ℚ) : Bool :=
  (segEdges ring).any (fun e => onSeg e.1 e.2 p)

/-- Modelled from the spec: the horizontal ray from `p` in the +x direction
crosses the edge from `a` to `b` (standard even-odd crossing rule). -/
def rayCrosses (a b p : ℚ × ℚ) : Bool :=
  (decide (p.2 < a.2) != decide (p.2 < b.2)) &&
  decide (p.1 < a.1 + (p.2 - a.2) * (b.1 - a.1) / (b.2 - a.2))

/-- Modelled from the spec (section 4.2 `contains`): ray-casting
point-in-polygon with points exactly on the boundary treated as not
contained.  The Shapely `contains` the source calls has the same boundary
policy. -/
def pipContains (ring : List (ℚ × ℚ)) (p : ℚ × ℚ) : Bool :=
  !(onRing ring p) &&
  ((segEdges ring).filter (fun e => rayCrosses e.1 e.2 p)).length % 2 == 1

/-- Concrete geometry values for the spec-modelled predicate evaluator:
points and simple polygons given by their closed vertex ring. -/
inductive PGeom where
  | pt (x y : ℚ)
  | poly (ring : List (ℚ × ℚ))
deriving DecidableEq

/-- Vertex ring of a polygon value. -/
def pgRing : PGeom → List (ℚ × ℚ)
  | PGeom.pt x y => [(x, y)]
  | PGeom.poly r => r

/-- Coordinates of a point value. -/
def pgPoint : PGeom → ℚ × ℚ
  | PGeom.pt x y => (x, y)
  | PGeom.poly _ => (0, 0)

/-- Modelled from the spec: `contains(polygon, point)` on the concrete
geometry values, via ray casting with the boundary excluded. -/
def pContains (g q : PGeom) : Bool :=
  pipContains (pgRing g) (pgPoint q)

/-- Witness instantiation of the interface whose `contains` is the
spec-modelled ray-casting test; the fields not exercised by the theorems
stated against it are immaterial placeholders. -/
def pipGeo : Geo PGeom where
  contains := pContains
  intersects := fun _ _ => true
  dwithin := fun _ _ _ => true
  dist := fun _ _ => 0
  area := fun _ => 0
  interArea := fun _ _ => 0
  ptX := fun g => (pgPoint g).1
  ptY := fun g => (pgPoint g).2
  monthOf := fun t => t
  sedonaCenter := PGeom.pt 0 0
  q3Box := PGeom.poly [(0, 0), (1, 0), (1, 1), (0, 1), (0, 0)]
  q6Bbox := PGeom.poly [(0, 0), (1, 0), (1, 1), (0, 1), (0, 0)]

/-! General lemmas about `fetch`, `sortBy`, key nodup preservation and the
pair enumeration, shared by the claim theorems below. -/

theorem fetch_true_eq {α : Type} (l : List α) (lim : ℕ) (h : l.length ≤ lim) :
    fetch l (fun _ => true) lim = l := by
  unfold fetch
  rw [List.filter_true, List.take_of_length_le h]

theorem fetch_eq_filter {α : Type} (l : List α) (p : α → Bool) (lim : ℕ)
    (h : l.length ≤ lim) : fetch l p lim = l.filter p :=
  List.take_of_length_le (le_trans (List.length_filter_le p l) h)

/-- Two sorted lists with the same elements are equal, assuming antisymmetry
of the order on the elements actually present. -/
theorem sorted_perm_eq {α : Type} {r : α → α → Prop}
    {l₁ l₂ : List α} (hp : List.Perm l₁ l₂) (h₁ : List.Sorted r l₁)
    (h₂ : List.Sorted r l₂)
    (anti : ∀ a ∈ l₁, ∀ b ∈ l₁, r a b → r b a → a = b) : l₁ = l₂ := by
  induction l₁ generalizing l₂ with
  | nil => exact (hp.symm.eq_nil).symm
  | cons a t₁ ih =>
    cases l₂ with
    | nil => exact absurd hp.eq_nil (by simp)
    | cons b t₂ =>
      have hab : a = b := by
        by_contra hne
        have ha2 : a ∈ b :: t₂ := hp.mem_iff.mp (List.mem_cons_self a t₁)
        have hb1 : b ∈ a :: t₁ := hp.mem_iff.mpr (List.mem_cons_self b t₂)
        have hat2 : a ∈ t₂ := by
          rcases List.mem_cons.mp ha2 with h | h
          · exact absurd h hne
          · exact h
        have hbt1 : b ∈ t₁ := by
          rcases List.mem_cons.mp hb1 with h | h
          · exact absurd h.symm hne
          · exact h
        have hrab : r a b := (List.sorted_cons.mp h₁).1 b hbt1
        have hrba : r b a := (List.sorted_cons.mp h₂).1 a hat2
        exact hne (anti a (List.mem_cons_self a t₁) b hb1 hrab hrba)
      subst hab
      have hpt : List.Perm t₁ t₂ := hp.cons_inv
      have ht := ih hpt (List.sorted_cons.mp h₁).2 (List.sorted_cons.mp h₂).2
        (fun x hx y hy hxy hyx => anti x (List.mem_cons_of_mem a hx)
          y (List.mem_cons_of_mem a hy) hxy hyx)
      rw [ht]
  
/-- Output of `sortBy` under a two-component lexicographic key: whenever the
leading component ties, the trailing component strictly increases, provided
the trailing component has no duplicates in the input. -/
theorem sortBy_pairwise_tiebreak {α K1 K2 : Type} [LinearOrder K1] [LinearOrder K2]
    (pre : α → K1) (pk : α → K2) (l : List α)
    (h : (l.map pk).Nodup) :
    (sortBy (fun a => toLex (pre a, pk a)) l).Pairwise
      (fun a b => pre a = pre b → pk a < pk b) := by
  have hs : (sortBy (fun a => toLex (pre a, pk a)) l).Pairwise
      (keyLe (fun a => toLex (pre a, pk a))) :=
    sortBy_sorted (fun a => toLex (pre a, pk a)) l
  have hperm := sortBy_perm (fun a => toLex (pre a, pk a)) l
  have hnd : ((sortBy (fun a => toLex (pre a, pk a)) l).map pk).Nodup :=
    ((hperm.map pk).nodup_iff).mpr h
  have hne : (sortBy (fun a => toLex (pre a, pk a)) l).Pairwise
      (fun a b => pk a ≠ pk b) := List.pairwise_map.mp hnd
  refine (hs.and hne).imp ?_
  rintro a b ⟨hle, hnepk⟩ hpre
  rcases (Prod.Lex.le_iff _ _).mp hle with hlt | ⟨_, hle2⟩
  · rw [hpre] at hlt
    exact absurd hlt (lt_irrefl _)
  · exact lt_of_le_of_ne hle2 hnepk

/-- Nodup of a key column is preserved by a key-preserving `filterMap`. -/
theorem nodup_map_filterMap {α β K : Type} (f : α → Option β) (ka : α → K)
    (kb : β → K) (hf : ∀ a b, f a = some b → kb b = ka a) :
    ∀ (l : List α), (l.map ka).Nodup → ((l.filterMap f).map kb).Nodup := by
  intro l
  induction l with
  | nil => simp
  | cons x xs ih =>
    intro h
    rw [List.map_cons, List.nodup_cons] at h
    obtain ⟨hx, hxs⟩ := h
    cases hfx : f x with
    | none => simpa [List.filterMap_cons_none hfx] using ih hxs
    | some b =>
      rw [List.filterMap_cons_some hfx, List.map_cons, List.nodup_cons]
      refine ⟨?_, ih hxs⟩
      intro hmem
      rcases List.mem_map.mp hmem with ⟨b', hb', hkb⟩
      rcases List.mem_filterMap.mp hb' with ⟨a', ha', hfa'⟩
      have h1 : kb b' = ka a' := hf a' b' hfa'
      have h2 : ka x = ka a' := by rw [← hf x b hfx, ← hkb, h1]
      exact hx (h2 ▸ List.mem_map_of_mem ka ha')

/-- Nodup of a key column is preserved by a key-preserving `map`. -/
theorem nodup_map_map {α β K : Type} (f : α → β) (ka : α → K) (kb : β → K)
    (hf : ∀ a, kb (f a) = ka a) (l : List α) (h : (l.map ka).Nodup) :
    ((l.map f).map kb).Nodup := by
  rw [List.map_map]
  have hc : (kb ∘ f) = ka := funext hf
  rw [hc]
  exact h

theorem pairsUpper_mem {α : Type} {p : α × α} :
    ∀ {l : List α}, p ∈ pairsUpper l → p.1 ∈ l ∧ p.2 ∈ l := by
  intro l
  induction l with
  | nil => intro h; simp [pairsUpper] at h
  | cons x xs ih =>
    intro h
    rw [pairsUpper, List.mem_append] at h
    rcases h with h | h
    · rcases List.mem_map.mp h with ⟨y, hy, hp⟩
      constructor
      · rw [← hp]; exact List.mem_cons_self x xs
      · rw [← hp]; exact List.mem_cons_of_mem x hy
    · exact ⟨List.mem_cons_of_mem x (ih h).1, List.mem_cons_of_mem x (ih h).2⟩

/-- Under a duplicate-free key column, the key pairs of the upper-triangle
enumeration are pairwise distinct. -/
theorem pairsUpper_nodup_keys {α K : Type} (key : α → K) :
    ∀ (l : List α), (l.map key).Nodup →
      ((pairsUpper l).map (fun p => (key p.1, key p.2))).Nodup := by
  intro l
  induction l with
  | nil => simp [pairsUpper]
  | cons x xs ih =>
    intro h
    rw [List.map_cons, List.nodup_cons] at h
    obtain ⟨hx, hxs⟩ := h
    rw [pairsUpper, List.map_append, List.nodup_append]
    refine ⟨?_, ih hxs, ?_⟩
    · rw [List.map_map]
      have heq : ((fun p : α × α => (key p.1, key p.2)) ∘ (fun y => (x, y))) =
          ((fun k => (key x, k)) ∘ key) := rfl
      rw [heq, ← List.map_map]
      exact (List.Nodup.map (fun k1 k2 hk => (Prod.mk.injEq _ _ _ _).mp hk |>.2) hxs)
    · intro a ha hb
      rcases List.mem_map.mp ha with ⟨w, hw, hwa⟩
      rcases List.mem_map.mp hw with ⟨y, _, hyw⟩
      rcases List.mem_map.mp hb with ⟨q, hq, hqa⟩
      have h3 : (key q.1, key q.2) = (key w.1, key w.2) := hqa.trans hwa.symm
      have hq1 : key q.1 = key w.1 := ((Prod.mk.injEq _ _ _ _).mp h3).1
      have hw1 : w.1 = x := by rw [← hyw]
      rw [hw1] at hq1
      exact hx (hq1 ▸ List.mem_map_of_mem key (pairsUpper_mem hq).1)

/-- Under a duplicate-free key column, no enumerated pair has equal keys. -/
theorem pairsUpper_key_ne {α K : Type} (key : α → K) :
    ∀ (l : List α), (l.map key).Nodup →
      ∀ p ∈ pairsUpper l, key p.1 ≠ key p.2 := by
  intro l
  induction l with
  | nil => intro _ p hp; simp [pairsUpper] at hp
  | cons x xs ih =>
    intro h p hp
    rw [List.map_cons, List.nodup_cons] at h
    obtain ⟨hx, hxs⟩ := h
    rw [pairsUpper, List.mem_append] at hp
    rcases hp with hp | hp
    · rcases List.mem_map.mp hp with ⟨y, hy, hyp⟩
      rw [← hyp]
      intro hk
      exact hx (hk ▸ List.mem_map_of_mem key hy)
    · exact ih hxs p hp

/-- Under a duplicate-free key column, the enumeration never contains both a
pair and its reverse. -/
theorem pairsUpper_asymm {α K : Type} (key : α → K) :
    ∀ (l : List α), (l.map key).Nodup →
      ∀ p ∈ pairsUpper l, ∀ q ∈ pairsUpper l,
        key p.1 = key q.2 → key p.2 = key q.1 → False := by
  intro l
  induction l with
  | nil => intro _ p hp; simp [pairsUpper] at hp
  | cons x xs ih =>
    intro h p hp q hq h1 h2
    rw [List.map_cons, List.nodup_cons] at h
    obtain ⟨hx, hxs⟩ := h
    rw [pairsUpper, List.mem_append] at hp hq
    rcases hp with hp | hp
    · rcases List.mem_map.mp hp with ⟨y, hy, hyp⟩
      rcases hq with hq | hq
      · rcases List.mem_map.mp hq with ⟨y', hy', hyq⟩
        rw [← hyp] at h1
        rw [← hyq] at h1
        exact hx (h1 ▸ List.mem_map_of_mem key hy')
      · rw [← hyp] at h1
        have := (pairsUpper_mem hq).2
        exact hx (h1 ▸ List.mem_map_of_mem key this)
    · rcases hq with hq | hq
      · rcases List.mem_map.mp hq with ⟨y', hy', hyq⟩
        rw [← hyq] at h2
        have := (pairsUpper_mem hp).2
        exact hx (h2.symm ▸ List.mem_map_of_mem key this)
      · exact ih hxs p hp q hq h1 h2

/-- In the upper-triangle enumeration of a list that is pairwise related,
every enumerated pair is related. -/
theorem pairsUpper_pairwise {α : Type} {rel : α → α → Prop} :
    ∀ {l : List α}, l.Pairwise rel → ∀ p ∈ pairsUpper l, rel p.1 p.2 := by
  intro l
  induction l with
  | nil => intro _ p hp; simp [pairsUpper] at hp
  | cons x xs ih =>
    intro h p hp
    rw [pairsUpper, List.mem_append] at hp
    rcases hp with hp | hp
    · rcases List.mem_map.mp hp with ⟨y, hy, hyp⟩
      rw [← hyp]
      exact (List.pairwise_cons.mp h).1 y hy
    · exact ih (List.pairwise_cons.mp h).2 p hp

/-- The `na_position="last"` component of the q10 key: a row whose
aggregate is `none` is never followed by a row whose aggregate has a value. -/
theorem q10Key_none_mono {a b : Q10Row} (h : keyLe q10Key a b)
    (ha : a.avg_duration = none) : b.avg_duration = none := by
  cases hb : b.avg_duration with
  | none => rfl
  | some d =>
    exfalso
    unfold keyLe q10Key at h
    rw [ha, hb] at h
    rcases (Prod.Lex.le_iff _ _).mp h with hlt | ⟨heq, _⟩
    · simp [durOrd, Prod.Lex.lt_iff] at hlt
    · simp [durOrd] at heq

/-! Shared characterization lemmas for individual queries. -/

theorem fetch_sublist {α : Type} (l : List α) (p : α → Bool) (lim : ℕ) :
    (fetch l p lim).Sublist l :=
  (List.take_sublist _ _).trans (List.filter_sublist l)

theorem nodup_key_fetch {α K : Type} (ka : α → K) (l : List α) (p : α → Bool)
    (lim : ℕ) (h : (l.map ka).Nodup) : ((fetch l p lim).map ka).Nodup :=
  List.Nodup.sublist ((fetch_sublist l p lim).map ka) h

/-- Projection lemmas for the q9 row constructor. -/
theorem q9Row_building_1 {G : Type} (ctx : Geo G) (b1 b2 : Building G) :
    (q9Row ctx b1 b2).building_1 = b1.b_buildingkey := rfl

theorem q9Row_building_2 {G : Type} (ctx : Geo G) (b1 b2 : Building G) :
    (q9Row ctx b1 b2).building_2 = b2.b_buildingkey := rfl

theorem q9Row_area1 {G : Type} (ctx : Geo G) (b1 b2 : Building G) :
    (q9Row ctx b1 b2).area1 = ctx.area b1.b_boundary := rfl

theorem q9Row_area2 {G : Type} (ctx : Geo G) (b1 b2 : Building G) :
    (q9Row ctx b1 b2).area2 = ctx.area b2.b_boundary := rfl

theorem q9Row_overlap {G : Type} (ctx : Geo G) (b1 b2 : Building G) :
    (q9Row ctx b1 b2).overlap_area = ctx.interArea b1.b_boundary b2.b_boundary := rfl

theorem q9Row_iou {G : Type} (ctx : Geo G) (b1 b2 : Building G) :
    (q9Row ctx b1 b2).iou =
      (if 0 < ctx.area b1.b_boundary + ctx.area b2.b_boundary -
            ctx.interArea b1.b_boundary b2.b_boundary then
        ctx.interArea b1.b_boundary b2.b_boundary /
          (ctx.area b1.b_boundary + ctx.area b2.b_boundary -
            ctx.interArea b1.b_boundary b2.b_boundary)
      else if 0 < ctx.interArea b1.b_boundary b2.b_boundary then 1
      else 0) := rfl

/-- Pair filter of q9 (lines 493, 507): keep an enumerated pair iff the
boundaries intersect. -/
def q9PairRow {G : Type} (ctx : Geo G) (p : Building G × Building G) : Option Q9Row :=
  if ctx.intersects p.1.b_boundary p.2.b_boundary then some (q9Row ctx p.1 p.2)
  else none

theorem q9_def_rows {G : Type} (ctx : Geo G) (db : DB G) :
    q9 ctx db = (Except.ok (sortBy q9Key
      ((pairsUpper (fetch db.building (fun _ => true) 1000000)).filterMap
        (q9PairRow ctx))), ["building"]) := by
  unfold q9
  by_cases h : (fetch db.building (fun _ => true) 1000000).isEmpty
  · rw [if_pos h]
    rw [List.isEmpty_iff.mp h]
    rfl
  · rw [if_neg h]
    rfl

theorem q9_okRows_eq {G : Type} (ctx : Geo G) (db : DB G)
    (hlimit : db.building.length ≤ 1000000) :
    okRows (q9 ctx db) = sortBy q9Key
      ((pairsUpper db.building).filterMap (q9PairRow ctx)) := by
  rw [q9_def_rows, fetch_true_eq _ _ hlimit]
  rfl

/-- C3: the three queries whose dominant predicate has no Milvus equivalent
(q5: convex hull / collect / area, q7: make-line / length, q12: KNN) always
fail with the unsupported-query error naming the missing primitives, and
their backend fetch trace is empty: the error is raised before any fetch. -/
theorem unsupported_queries_fail_fast {G : Type} (ctx : Geo G) (db : DB G) :
    q5 ctx db = (Except.error (QErr.unsupportedQuery
      ["ST_ConvexHull", "ST_Collect", "ST_Area"]), []) ∧
    q7 ctx db = (Except.error (QErr.unsupportedQuery
      ["ST_MakeLine", "ST_Length"]), []) ∧
    q12 ctx db = (Except.error (QErr.unsupportedQuery ["ST_KNN"]), []) :=
  ⟨rfl, rfl, rfl⟩

/-- C1: every row of the pairwise-overlap query q9 (which exists exactly for
pairs whose boundaries intersect) carries the IoU of the exact three-way
branch: intersection over union when the union area is positive, 1 when the
union area is zero but the intersection area is positive, 0 when both are
zero, with union = area1 + area2 - overlap. -/
theorem q9_iou_three_way {G : Type} (ctx : Geo G) (db : DB G) (r : Q9Row)
    (hr : r ∈ okRows (q9 ctx db)) :
    (0 < r.area1 + r.area2 - r.overlap_area →
      r.iou = r.overlap_area / (r.area1 + r.area2 - r.overlap_area)) ∧
    (r.area1 + r.area2 - r.overlap_area = 0 → 0 < r.overlap_area → r.iou = 1) ∧
    (r.area1 + r.area2 - r.overlap_area = 0 → r.overlap_area = 0 → r.iou = 0) := by
  rw [q9_def_rows] at hr
  simp only [okRows] at hr
  have hr2 := (sortBy_perm q9Key _).mem_iff.mp hr
  rcases List.mem_filterMap.mp hr2 with ⟨p, _, hcond⟩
  unfold q9PairRow at hcond
  by_cases hint : ctx.intersects p.1.b_boundary p.2.b_boundary
  · rw [if_pos hint] at hcond
    have hreq : r = q9Row ctx p.1 p.2 := ((Option.some.injEq _ _).mp hcond).symm
    subst hreq
    rw [q9Row_area1, q9Row_area2, q9Row_overlap, q9Row_iou]
    refine ⟨?_, ?_, ?_⟩
    · intro hu
      rw [if_pos hu]
    · intro hu hov
      rw [if_neg (by rw [hu]; exact lt_irrefl 0), if_pos hov]
    · intro hu hov
      rw [if_neg (by rw [hu]; exact lt_irrefl 0), if_neg (by rw [hov]; exact lt_irrefl 0)]
  · rw [if_neg hint] at hcond
    exact absurd hcond (by simp)

/-- Witness data for C1: two overlapping 2-by-2 and 2-by-2 boxes. -/
def bC1a : Building BoxGeom :=
  { b_buildingkey := 1, b_name := "b1", b_boundary := BoxGeom.box 0 0 2 2 }

def bC1b : Building BoxGeom :=
  { b_buildingkey := 2, b_name := "b2", b_boundary := BoxGeom.box 1 1 3 3 }

def dbC1 : DB BoxGeom := { trip := [], zone := [], building := [bC1a, bC1b] }

theorem q9_iou_three_way_witness :
    q9Row boxGeo bC1a bC1b ∈ okRows (q9 boxGeo dbC1) ∧
    0 < (q9Row boxGeo bC1a bC1b).area1 + (q9Row boxGeo bC1a bC1b).area2 -
      (q9Row boxGeo bC1a bC1b).overlap_area ∧
    (q9Row boxGeo bC1a bC1b).iou = (q9Row boxGeo bC1a bC1b).overlap_area /
      ((q9Row boxGeo bC1a bC1b).area1 + (q9Row boxGeo bC1a bC1b).area2 -
        (q9Row boxGeo bC1a bC1b).overlap_area) := by
  have hmem : q9Row boxGeo bC1a bC1b ∈ okRows (q9 boxGeo dbC1) := by
    rw [q9_okRows_eq boxGeo dbC1 (by norm_num [dbC1])]
    rw [(sortBy_perm q9Key _).mem_iff]
    refine List.mem_filterMap.mpr ⟨(bC1a, bC1b), ?_, ?_⟩
    · norm_num [dbC1, pairsUpper]
    · unfold q9PairRow
      rw [if_pos ?_]
      norm_num [boxGeo, bC1a, bC1b, bgX1, bgX2, bgY1, bgY2]
  have hpos : 0 < (q9Row boxGeo bC1a bC1b).area1 + (q9Row boxGeo bC1a bC1b).area2 -
      (q9Row boxGeo bC1a bC1b).overlap_area := by
    rw [q9Row_area1, q9Row_area2, q9Row_overlap]
    norm_num [boxGeo, bC1a, bC1b, bgX1, bgX2, bgY1, bgY2]
  exact ⟨hmem, hpos, (q9_iou_three_way boxGeo dbC1 _ hmem).1 hpos⟩

/-- Counterexample data for C6: two fully overlapping zones returned by the
backend with the higher key first. -/
def zC6a : Zone BoxGeom :=
  { z_zonekey := 2, z_name := "A", z_boundary := BoxGeom.box 0 0 2 2 }

def zC6b : Zone BoxGeom :=
  { z_zonekey := 1, z_name := "B", z_boundary := BoxGeom.box 0 0 2 2 }

/-- C6 counterexample: a point contained in two overlapping zones is assigned
the zone that the backend returned first (key 2), not the zone with the
smaller key (key 1): the code iterates the fetched zone list as-is and never
sorts the candidates by zone key, so the claim's "ascending zone key"
iteration order does not hold. -/
theorem findZone_ascending_key_counterexample :
    boxGeo.contains zC6b.z_boundary (BoxGeom.pt 1 1) = true ∧
    zC6b.z_zonekey < zC6a.z_zonekey ∧
    findZone boxGeo [zC6a, zC6b] (BoxGeom.pt 1 1) = some zC6a.z_zonekey ∧
    findZone boxGeo [zC6a, zC6b] (BoxGeom.pt 1 1) ≠ some zC6b.z_zonekey := by
  refine ⟨?_, by norm_num [zC6a, zC6b], ?_, ?_⟩
  · norm_num [boxGeo, zC6b, bgX1, bgX2, bgY1, bgY2]
  · norm_num [findZone, boxGeo, zC6a, zC6b, bgX1, bgX2, bgY1, bgY2]
  · norm_num [findZone, boxGeo, zC6a, zC6b, bgX1, bgX2, bgY1, bgY2]

/-- C6 (amended): the zone assigned by q11's first-matching-zone resolution
is the first zone, in the order in which the backend returned the zone rows,
whose boundary contains the point; the code does not reorder the candidates,
so the assignment is reproducible only relative to the backend's return
order. -/
theorem findZone_first_match_in_fetch_order {G : Type} (ctx : Geo G)
    (l1 l2 : List (Zone G)) (z : Zone G) (p : G)
    (h1 : ∀ z' ∈ l1, ctx.contains z'.z_boundary p = false)
    (h2 : ctx.contains z.z_boundary p = true) :
    findZone ctx (l1 ++ z :: l2) p = some z.z_zonekey := by
  induction l1 with
  | nil => simp [findZone, h2]
  | cons w ws ih =>
    have hw : ctx.contains w.z_boundary p = false := h1 w (List.mem_cons_self w ws)
    simp only [List.cons_append, findZone, hw, Bool.false_eq_true, if_false]
    exact ih (fun z' hz' => h1 z' (List.mem_cons_of_mem w hz'))

/-- Far-away zone used in the C6 witness. -/
def zC6far : Zone BoxGeom :=
  { z_zonekey := 7, z_name := "far", z_boundary := BoxGeom.box 50 50 60 60 }

theorem findZone_first_match_witness :
    findZone boxGeo [zC6far, zC6b] (BoxGeom.pt 1 1) = some zC6b.z_zonekey := by
  refine findZone_first_match_in_fetch_order boxGeo [zC6far] [] zC6b (BoxGeom.pt 1 1) ?_ ?_
  · intro z' hz'
    rcases List.mem_singleton.mp hz' with rfl
    norm_num [boxGeo, zC6far, bgX1, bgX2, bgY1, bgY2]
  · norm_num [boxGeo, zC6b, bgX1, bgX2, bgY1, bgY2]

/-- C9: if no zone named 'Coconino County' exists, q2 returns a single row
counting 0 instead of failing; if such a zone exists, the first one in
backend order is used (limit 1) and the returned count is the number of trip
pickups the backend reports as intersecting that zone's boundary. -/
theorem q2_coconino_count {G : Type} (ctx : Geo G) (db : DB G)
    (htrip : db.trip.length ≤ 10000000) :
    ((∀ z ∈ db.zone, z.z_name ≠ "Coconino County") →
      okRows (q2 ctx db) = [{ trip_count_in_coconino_county := 0 }]) ∧
    (∀ (l1 : List (Zone G)) (z : Zone G) (l2 : List (Zone G)),
      db.zone = l1 ++ z :: l2 →
      (∀ z' ∈ l1, z'.z_name ≠ "Coconino County") →
      z.z_name = "Coconino County" →
      okRows (q2 ctx db) = [{ trip_count_in_coconino_county :=
        (db.trip.filter
          (fun t => ctx.intersects t.t_pickuploc z.z_boundary)).length }]) := by
  constructor
  · intro hnone
    have hfz : db.zone.filter (fun z => z.z_name == "Coconino County") = [] := by
      rw [List.filter_eq_nil_iff]
      intro z hz
      simp only [beq_iff_eq]
      exact hnone z hz
    unfold q2
    rw [show fetch db.zone (fun z => z.z_name == "Coconino County") 1 = [] from by
      unfold fetch; rw [hfz]; rfl]
    exact rfl
  · intro l1 z l2 hsplit hl1 hz
    have hfl1 : l1.filter (fun w => w.z_name == "Coconino County") = [] := by
      rw [List.filter_eq_nil_iff]
      intro w hw
      simp only [beq_iff_eq]
      exact hl1 w hw
    have hfz : db.zone.filter (fun w => w.z_name == "Coconino County") =
        z :: l2.filter (fun w => w.z_name == "Coconino County") := by
      rw [hsplit, List.filter_append, hfl1, List.nil_append,
        List.filter_cons_of_pos (by simp [hz])]
    have hq : okRows (q2 ctx db) = [{ trip_count_in_coconino_county :=
        (fetch db.trip (fun t => ctx.intersects t.t_pickuploc z.z_boundary)
          10000000).length }] := by
      unfold q2
      rw [show fetch db.zone (fun w => w.z_name == "Coconino County") 1 = [z] from by
        unfold fetch; rw [hfz]; rfl]
      exact rfl
    rw [hq, fetch_eq_filter db.trip _ _ htrip]

/-- Witness data for C9: one db without the county, one with it (preceded by
a differently named zone) and one intersecting trip pickup. -/
def zOther : Zone BoxGeom :=
  { z_zonekey := 9, z_name := "Yavapai County", z_boundary := BoxGeom.box 30 30 40 40 }

def zCoco : Zone BoxGeom :=
  { z_zonekey := 4, z_name := "Coconino County", z_boundary := BoxGeom.box 0 0 2 2 }

def tC9 : Trip BoxGeom :=
  { t_tripkey := 1, t_pickuploc := BoxGeom.pt 1 1, t_dropoffloc := BoxGeom.pt 1 1
    t_pickuptime := 0, t_dropofftime := 60, t_distance := 2, t_fare := 10
    t_tip := 1, t_totalamount := 11 }

def dbC9n : DB BoxGeom := { trip := [tC9], zone := [zOther], building := [] }

def dbC9y : DB BoxGeom := { trip := [tC9], zone := [zOther, zCoco], building := [] }

theorem q2_coconino_count_witness :
    okRows (q2 boxGeo dbC9n) = [{ trip_count_in_coconino_county := 0 }] ∧
    okRows (q2 boxGeo dbC9y) = [{ trip_count_in_coconino_county := 1 }] := by
  constructor
  · refine (q2_coconino_count boxGeo dbC9n (by norm_num [dbC9n])).1 ?_
    intro z hz
    rcases List.mem_singleton.mp hz with rfl
    decide
  · rw [(q2_coconino_count boxGeo dbC9y (by norm_num [dbC9y])).2
      [zOther] zCoco [] rfl ?_ rfl]
    · norm_num [dbC9y, tC9, zCoco, boxGeo, bgX1, bgX2, bgY1, bgY2]
    · intro z' hz'
      rcases List.mem_singleton.mp hz' with rfl
      decide

/-- C10: the q4 top-1000 selection is a deterministic function of the fetched
trip multiset: for any two backend return orders of the same trip rows (with
the unique trip keys of the data model), the selected list is identical. -/
theorem q4TopTrips_order_independent {G : Type} (l1 l2 : List (Trip G))
    (hperm : List.Perm l1 l2)
    (hnd : (l1.map (fun t => t.t_tripkey)).Nodup) :
    q4TopTrips l1 = q4TopTrips l2 := by
  unfold q4TopTrips
  have hsorteq : sortBy q4TripKey l1 = sortBy q4TripKey l2 := by
    apply sorted_perm_eq
      ((sortBy_perm q4TripKey l1).trans (hperm.trans (sortBy_perm q4TripKey l2).symm))
      (sortBy_sorted _ _) (sortBy_sorted _ _)
    intro a ha b hb hab hba
    have ha1 : a ∈ l1 := (sortBy_perm q4TripKey l1).mem_iff.mp ha
    have hb1 : b ∈ l1 := (sortBy_perm q4TripKey l1).mem_iff.mp hb
    have hk : q4TripKey a = q4TripKey b := le_antisymm hab hba
    have hpair : (-a.t_tip, a.t_tripkey) = (-b.t_tip, b.t_tripkey) :=
      toLex.injective hk
    exact List.inj_on_of_nodup_map hnd ha1 hb1 ((Prod.mk.injEq _ _ _ _).mp hpair).2
  rw [hsorteq]

/-- Witness trips for C10, with a tie on the tip amount between keys 1 and 3. -/
def tW1 : Trip BoxGeom :=
  { t_tripkey := 1, t_pickuploc := BoxGeom.pt 0 0, t_dropoffloc := BoxGeom.pt 0 0
    t_pickuptime := 0, t_dropofftime := 0, t_distance := 0, t_fare := 0
    t_tip := 5, t_totalamount := 0 }

def tW2 : Trip BoxGeom :=
  { t_tripkey := 2, t_pickuploc := BoxGeom.pt 0 0, t_dropoffloc := BoxGeom.pt 0 0
    t_pickuptime := 0, t_dropofftime := 0, t_distance := 0, t_fare := 0
    t_tip := 3, t_totalamount := 0 }

def tW3 : Trip BoxGeom :=
  { t_tripkey := 3, t_pickuploc := BoxGeom.pt 0 0, t_dropoffloc := BoxGeom.pt 0 0
    t_pickuptime := 0, t_dropofftime := 0, t_distance := 0, t_fare := 0
    t_tip := 5, t_totalamount := 0 }

theorem q4TopTrips_order_independent_witness :
    q4TopTrips [tW1, tW2, tW3] = q4TopTrips [tW3, tW1, tW2] := by
  apply q4TopTrips_order_independent
  · decide
  · decide

/-- C5: the point-in-polygon containment test used by the zone/building
assignment joins treats points exactly on the polygon's boundary as not
contained, so a boundary point contributes to no zone's trip count and is
assigned no zone.  (The Python source delegates `contains` to the external
Shapely library, whose boundary policy spec section 4.2 fixes; the test is
the spec-modelled ray-casting predicate `pContains`.) -/
theorem boundary_point_not_contained (ctx : Geo PGeom)
    (hctx : ctx.contains = pContains) (ring : List (ℚ × ℚ)) (x y : ℚ)
    (hb : onRing ring (x, y) = true) :
    ctx.contains (PGeom.poly ring) (PGeom.pt x y) = false ∧
    (∀ pts : List PGeom,
      zoneContainCount ctx (PGeom.poly ring) (PGeom.pt x y :: pts) =
        zoneContainCount ctx (PGeom.poly ring) pts) ∧
    (∀ zones : List (Zone PGeom),
      (∀ z ∈ zones, onRing (pgRing z.z_boundary) (x, y) = true) →
      findZone ctx zones (PGeom.pt x y) = none) := by
  have hcf : ∀ g : PGeom, onRing (pgRing g) (x, y) = true →
      ctx.contains g (PGeom.pt x y) = false := by
    intro g hg
    rw [hctx]
    unfold pContains pipContains
    simp [pgPoint, hg]
  refine ⟨hcf (PGeom.poly ring) (by simpa [pgRing] using hb), ?_, ?_⟩
  · intro pts
    unfold zoneContainCount
    rw [List.filter_cons_of_neg
      (by simp [hcf (PGeom.poly ring) (by simpa [pgRing] using hb)])]
  · intro zones hz
    induction zones with
    | nil => rfl
    | cons w ws ih =>
      have hw : ctx.contains w.z_boundary (PGeom.pt x y) = false :=
        hcf w.z_boundary (hz w (List.mem_cons_self w ws))
      simp only [findZone, hw, Bool.false_eq_true, if_false]
      exact ih (fun z' hz' => hz z' (List.mem_cons_of_mem w hz'))

/-- Witness ring for C5: a 2-by-2 square, with the boundary point (1, 0) in
the middle of its bottom edge. -/
def sqRing : List (ℚ × ℚ) := [(0, 0), (2, 0), (2, 2), (0, 2), (0, 0)]

theorem boundary_point_not_contained_witness :
    onRing sqRing (1, 0) = true ∧
    pipGeo.contains (PGeom.poly sqRing) (PGeom.pt 1 0) = false ∧
    zoneContainCount pipGeo (PGeom.poly sqRing) [PGeom.pt 1 0] =
      zoneContainCount pipGeo (PGeom.poly sqRing) [] := by
  have hb : onRing sqRing (1, 0) = true := by
    norm_num [onRing, sqRing, segEdges, onSeg, List.any]
  have h := boundary_point_not_contained pipGeo rfl sqRing 1 0 hb
  exact ⟨hb, h.1, h.2.1 []⟩

/-- Key-pair columns `(building_1, building_2)` of the q9 output rows. -/
def q9KeyPairs {G : Type} (ctx : Geo G) (db : DB G) : List (Int × Int) :=
  (okRows (q9 ctx db)).map (fun r => (r.building_1, r.building_2))

/-- Counterexample data for C8: two intersecting buildings returned by the
backend with the higher key first. -/
def bC8a : Building BoxGeom :=
  { b_buildingkey := 5, b_name := "a", b_boundary := BoxGeom.box 0 0 2 2 }

def bC8b : Building BoxGeom :=
  { b_buildingkey := 3, b_name := "b", b_boundary := BoxGeom.box 1 1 3 3 }

def dbC8 : DB BoxGeom := { trip := [], zone := [], building := [bC8a, bC8b] }

/-- C8 counterexample: q9 pairs buildings by their position in the fetched
list, not by key; with the backend returning keys [5, 3], the single output
row lists building_1 = 5 and building_2 = 3, so the lower key is not listed
first. -/
theorem q9_lower_key_first_counterexample :
    q9KeyPairs boxGeo dbC8 = [(5, 3)] ∧ ¬((5 : Int) < 3) := by
  constructor
  · rfl
  · decide


/-- C8 (amended): the pairwise overlap relation of q9 is computed exactly
once per unordered pair of distinct positions of the fetched building list
(never a duplicated pair, never a reversed duplicate, never a self-pair),
one output row per intersecting pair, with the building earlier in the
backend's return order listed first; `building_1 < building_2` holds
whenever the fetched building list is ascending by key (the code itself
does not sort the buildings by key). -/
theorem q9_unordered_pairs {G : Type} (ctx : Geo G) (db : DB G)
    (hlimit : db.building.length ≤ 1000000)
    (hnd : (db.building.map (fun b => b.b_buildingkey)).Nodup) :
    (q9KeyPairs ctx db).Nodup ∧
    (∀ p ∈ q9KeyPairs ctx db, (p.2, p.1) ∉ q9KeyPairs ctx db) ∧
    (∀ p ∈ pairsUpper db.building,
      ctx.intersects p.1.b_boundary p.2.b_boundary = true →
      (p.1.b_buildingkey, p.2.b_buildingkey) ∈ q9KeyPairs ctx db) ∧
    (db.building.Pairwise (fun a b => a.b_buildingkey < b.b_buildingkey) →
      ∀ r ∈ okRows (q9 ctx db), r.building_1 < r.building_2) := by
  have hrows := q9_okRows_eq ctx db hlimit
  have hperm : List.Perm (q9KeyPairs ctx db)
      (((pairsUpper db.building).filterMap (q9PairRow ctx)).map
        (fun r : Q9Row => (r.building_1, r.building_2))) := by
    rw [q9KeyPairs, hrows]
    exact (sortBy_perm q9Key _).map _
  have hf : ∀ (p : Building G × Building G) (r : Q9Row),
      q9PairRow ctx p = some r →
      (r.building_1, r.building_2) = (p.1.b_buildingkey, p.2.b_buildingkey) := by
    intro p r hp
    unfold q9PairRow at hp
    by_cases hint : ctx.intersects p.1.b_boundary p.2.b_boundary
    · rw [if_pos hint] at hp
      rw [← (Option.some.injEq _ _).mp hp]
      exact rfl
    · rw [if_neg hint] at hp
      exact absurd hp (by simp)
  have hkp : ∀ q : Int × Int, q ∈ q9KeyPairs ctx db →
      ∃ pr ∈ pairsUpper db.building,
        (pr.1.b_buildingkey, pr.2.b_buildingkey) = q := by
    intro q hq
    rcases List.mem_map.mp (hperm.mem_iff.mp hq) with ⟨r, hrL, hrq⟩
    rcases List.mem_filterMap.mp hrL with ⟨pr, hpr, hsome⟩
    exact ⟨pr, hpr, (hf pr r hsome).symm.trans hrq⟩
  refine ⟨?_, ?_, ?_, ?_⟩
  · refine hperm.nodup_iff.mpr ?_
    exact nodup_map_filterMap (q9PairRow ctx)
      (fun p => (p.1.b_buildingkey, p.2.b_buildingkey))
      (fun r => (r.building_1, r.building_2)) hf (pairsUpper db.building)
      (pairsUpper_nodup_keys (fun b => b.b_buildingkey) db.building hnd)
  · intro p hp hprev
    rcases hkp p hp with ⟨pr, hpr, hpr2⟩
    rcases hkp (p.2, p.1) hprev with ⟨qr, hqr, hqr2⟩
    have h1 : pr.1.b_buildingkey = qr.2.b_buildingkey := by
      have e1 : pr.1.b_buildingkey = p.1 := congrArg Prod.fst hpr2
      have e2 : qr.2.b_buildingkey = p.1 := congrArg Prod.snd hqr2
      rw [e1, e2]
    have h2 : pr.2.b_buildingkey = qr.1.b_buildingkey := by
      have e1 : pr.2.b_buildingkey = p.2 := congrArg Prod.snd hpr2
      have e2 : qr.1.b_buildingkey = p.2 := congrArg Prod.fst hqr2
      rw [e1, e2]
    exact pairsUpper_asymm (fun b => b.b_buildingkey) db.building hnd
      pr hpr qr hqr h1 h2
  · intro p hp hint
    refine hperm.mem_iff.mpr ?_
    refine List.mem_map.mpr ⟨q9Row ctx p.1 p.2, ?_, rfl⟩
    refine List.mem_filterMap.mpr ⟨p, hp, ?_⟩
    unfold q9PairRow
    rw [if_pos hint]
  · intro hasc r hr
    rw [hrows] at hr
    have hrL := (sortBy_perm q9Key _).mem_iff.mp hr
    rcases List.mem_filterMap.mp hrL with ⟨pr, hpr, hsome⟩
    have hkeys := hf pr r hsome
    have h1 : r.building_1 = pr.1.b_buildingkey := congrArg Prod.fst hkeys
    have h2 : r.building_2 = pr.2.b_buildingkey := congrArg Prod.snd hkeys
    rw [h1, h2]
    exact pairsUpper_pairwise hasc pr hpr

/-- Witness data for the amended C8: two intersecting buildings fetched in
ascending key order. -/
def bC8c : Building BoxGeom :=
  { b_buildingkey := 1, b_name := "c", b_boundary := BoxGeom.box 0 0 2 2 }

def bC8d : Building BoxGeom :=
  { b_buildingkey := 2, b_name := "d", b_boundary := BoxGeom.box 1 1 3 3 }

def dbC8w : DB BoxGeom := { trip := [], zone := [], building := [bC8c, bC8d] }

theorem q9_unordered_pairs_witness :
    (q9KeyPairs boxGeo dbC8w).Nodup ∧
    ((1 : Int), (2 : Int)) ∈ q9KeyPairs boxGeo dbC8w ∧
    (∀ r ∈ okRows (q9 boxGeo dbC8w), r.building_1 < r.building_2) := by
  have h := q9_unordered_pairs boxGeo dbC8w (by norm_num [dbC8w]) (by decide)
  refine ⟨h.1, ?_, h.2.2.2 (by decide)⟩
  exact h.2.2.1 (bC8c, bC8d) (by decide) (by decide)

/-- A q10 zone row reporting zero trips is the no-match row: its aggregate
columns are the null value, not zero. -/
theorem q10RowOf_no_match {G : Type} (ctx : Geo G) (trips : List (Trip G))
    (z : Zone G) (h : (q10RowOf ctx trips z).num_trips = 0) :
    (q10RowOf ctx trips z).avg_duration = none ∧
    (q10RowOf ctx trips z).avg_distance = none := by
  unfold q10RowOf at h ⊢
  by_cases hm : 0 <
      (trips.filter (fun t => ctx.contains z.z_boundary t.t_pickuploc)).length
  · rw [if_pos hm] at h
    have h0 : (trips.filter
        (fun t => ctx.contains z.z_boundary t.t_pickuploc)).length = 0 := h
    omega
  · rw [if_neg hm]
    exact ⟨rfl, rfl⟩

/-- The q10 output is, up to the final sort, exactly one row per fetched
zone, built by `q10RowOf` (both the ordinary path and the dedicated
empty-trip branch of lines 559-568 produce that row). -/
theorem q10_okRows_perm {G : Type} (ctx : Geo G) (db : DB G)
    (hz : db.zone.length ≤ 1000000) (ht : db.trip.length ≤ 10000000) :
    List.Perm (okRows (q10 ctx db)) (db.zone.map (q10RowOf ctx db.trip)) := by
  unfold q10
  rw [fetch_true_eq db.zone _ hz, fetch_true_eq db.trip _ ht]
  by_cases hze : db.zone.isEmpty
  · rw [if_pos hze, List.isEmpty_iff.mp hze]
    exact List.Perm.refl _
  · rw [if_neg hze]
    by_cases hte : db.trip.isEmpty
    · rw [if_pos hte]
      have htnil := List.isEmpty_iff.mp hte
      simp only [okRows]
      refine (sortBy_perm q10Key _).trans ?_
      rw [htnil]
      have hcong : ∀ z ∈ db.zone,
          ({ z_zonekey := z.z_zonekey, pickup_zone := z.z_name
             avg_duration := none, avg_distance := none
             num_trips := 0 } : Q10Row) = q10RowOf ctx [] z := by
        intro z _
        unfold q10RowOf
        rw [if_neg (by simp)]
      rw [List.map_congr_left hcong]
    · rw [if_neg hte]
      simp only [okRows]
      exact sortBy_perm q10Key _

/-- Counterexample data for C2: one zone inside the q6 bounding box, and one
trip whose pickup lies outside the zone. -/
def zC2 : Zone BoxGeom :=
  { z_zonekey := 1, z_name := "Z", z_boundary := BoxGeom.box 0 0 2 2 }

def tC2 : Trip BoxGeom :=
  { t_tripkey := 1, t_pickuploc := BoxGeom.pt 50 50, t_dropoffloc := BoxGeom.pt 50 50
    t_pickuptime := 0, t_dropofftime := 60, t_distance := 2, t_fare := 10
    t_tip := 1, t_totalamount := 11 }

def dbC2 : DB BoxGeom := { trip := [tC2], zone := [zC2], building := [] }

/-- C2 counterexample: in the grouping query q6 a zone (fetched, since it
intersects the bounding box) with zero matching trips produces no output row
at all — the output is empty rather than one row with null aggregates, so
the claim fails for q6. -/
theorem q6_zero_match_zone_dropped :
    fetch dbC2.zone (fun z => boxGeo.intersects z.z_boundary boxGeo.q6Bbox)
      100000 = [zC2] ∧
    (dbC2.trip.filter
      (fun t => boxGeo.contains zC2.z_boundary t.t_pickuploc)).length = 0 ∧
    okRows (q6 boxGeo dbC2) = [] := by
  refine ⟨rfl, rfl, rfl⟩

/-- C2 (amended): the left-join zone-statistics query q10 retains every
grouping key: its output has exactly one row per fetched zone, and a zone
with zero matching trips keeps its identity columns with both aggregate
columns null (not zero, not omitted); in particular 3 zones with 1 matching
zone give 3 rows, 2 of them null.  The bounding-box grouping query q6, by
contrast, omits zones with zero matching trips (see the counterexample). -/
theorem q10_outer_join_retention {G : Type} (ctx : Geo G) (db : DB G)
    (hz : db.zone.length ≤ 1000000) (ht : db.trip.length ≤ 10000000) :
    List.Perm (okRows (q10 ctx db)) (db.zone.map (q10RowOf ctx db.trip)) ∧
    (okRows (q10 ctx db)).length = db.zone.length ∧
    (∀ r ∈ okRows (q10 ctx db), r.num_trips = 0 →
      r.avg_duration = none ∧ r.avg_distance = none) := by
  have hperm := q10_okRows_perm ctx db hz ht
  refine ⟨hperm, by rw [hperm.length_eq, List.length_map], ?_⟩
  intro r hr h0
  rcases List.mem_map.mp (hperm.mem_iff.mp hr) with ⟨z, _, hzr⟩
  rw [← hzr] at h0 ⊢
  exact q10RowOf_no_match ctx db.trip z h0

/-- Witness data for C2: three disjoint zones, one trip inside the first. -/
def zW1 : Zone BoxGeom :=
  { z_zonekey := 1, z_name := "z1", z_boundary := BoxGeom.box 0 0 2 2 }

def zW2 : Zone BoxGeom :=
  { z_zonekey := 2, z_name := "z2", z_boundary := BoxGeom.box 10 10 12 12 }

def zW3 : Zone BoxGeom :=
  { z_zonekey := 3, z_name := "z3", z_boundary := BoxGeom.box 20 20 22 22 }

def tC2w : Trip BoxGeom :=
  { t_tripkey := 1, t_pickuploc := BoxGeom.pt 1 1, t_dropoffloc := BoxGeom.pt 1 1
    t_pickuptime := 0, t_dropofftime := 60, t_distance := 2, t_fare := 10
    t_tip := 1, t_totalamount := 11 }

def db3 : DB BoxGeom := { trip := [tC2w], zone := [zW1, zW2, zW3], building := [] }

theorem q10_outer_join_retention_witness :
    (okRows (q10 boxGeo db3)).length = 3 ∧
    ((okRows (q10 boxGeo db3)).filter
      (fun r => decide (r.avg_duration = none))).length = 2 := by
  have h := q10_outer_join_retention boxGeo db3 (by norm_num [db3])
    (by norm_num [db3])
  constructor
  · rw [h.2.1]
    rfl
  · rw [(h.1.filter (fun r => decide (r.avg_duration = none))).length_eq]
    rfl

/-- Row builder of q1 line 123-126 for one fetched trip. -/
def q1RowOf {G : Type} (ctx : Geo G) (t : Trip G) : Q1Row :=
  { t_tripkey := t.t_tripkey
    pickup_lon := ctx.ptX t.t_pickuploc
    pickup_lat := ctx.ptY t.t_pickuploc
    t_pickuptime := t.t_pickuptime
    distance_to_center := ctx.dist t.t_pickuploc ctx.sedonaCenter }

theorem q1_def {G : Type} (ctx : Geo G) (db : DB G) :
    q1 ctx db = (Except.ok (sortBy q1Key ((fetch db.trip
      (fun t => ctx.dwithin t.t_pickuploc ctx.sedonaCenter (45/100))
        1000000).map (q1RowOf ctx))), ["trip"]) := by
  simp only [q1]
  split
  · rename_i h
    rw [List.isEmpty_iff.mp h]
    rfl
  · rfl

/-- Per-month row builder of q3 lines 207-217. -/
def q3RowOf {G : Type} (ctx : Geo G) (results : List (Trip G)) (m : Int) : Q3Row :=
  let grp := results.filter (fun t => ctx.monthOf t.t_pickuptime == m)
  { pickup_month := m
    total_trips := grp.length
    avg_distance := listMean (grp.map (fun t => t.t_distance))
    avg_duration :=
      listMean (grp.map (fun t => ((t.t_dropofftime - t.t_pickuptime : Int) : ℚ)))
    avg_fare := listMean (grp.map (fun t => t.t_fare)) }

theorem q3_def {G : Type} (ctx : Geo G) (db : DB G) :
    q3 ctx db = (Except.ok (sortBy q3Key
      (((fetch db.trip (fun t => ctx.dwithin t.t_pickuploc ctx.q3Box (45/1000))
          10000000).map (fun t => ctx.monthOf t.t_pickuptime)).dedup.map
        (q3RowOf ctx (fetch db.trip
          (fun t => ctx.dwithin t.t_pickuploc ctx.q3Box (45/1000)) 10000000)))),
      ["trip"]) := by
  simp only [q3]
  split
  · rename_i h
    rw [List.isEmpty_iff.mp h]
    rfl
  · rfl

/-- Per-zone row builder of q4 lines 267-275: `none` models the omission of
zones with no contained top trip. -/
def q4ZoneRow {G : Type} (ctx : Geo G) (top_trips : List (Trip G))
    (z : Zone G) : Option Q4Row :=
  let count := zoneContainCount ctx z.z_boundary
    (top_trips.map (fun t => t.t_pickuploc))
  if 0 < count then
    some { z_zonekey := z.z_zonekey, z_name := z.z_name, trip_count := count }
  else none

theorem q4_okRows_eq {G : Type} (ctx : Geo G) (db : DB G) :
    okRows (q4 ctx db) = sortBy q4Key
      ((fetch db.zone (fun _ => true) 100000).filterMap
        (q4ZoneRow ctx (q4TopTrips
          (fetch db.trip (fun _ => true) 10000000)))) := by
  simp only [q4]
  split
  · rename_i h
    rw [List.isEmpty_iff.mp h]
    rw [show List.filterMap (q4ZoneRow ctx (q4TopTrips []))
        (fetch db.zone (fun _ => true) 100000) = [] from
      List.filterMap_eq_nil_iff.mpr (fun z _ => rfl)]
    rfl
  · split
    · rename_i h
      rw [List.isEmpty_iff.mp h]
      rfl
    · rfl

/-- Per-zone row builder of q6 lines 347-365. -/
def q6ZoneRow {G : Type} (ctx : Geo G) (trips : List (Trip G))
    (z : Zone G) : Option Q6Row :=
  let matching := trips.filter (fun t => ctx.contains z.z_boundary t.t_pickuploc)
  if 0 < matching.length then
    some { z_zonekey := z.z_zonekey
           z_name := z.z_name
           total_pickups := matching.length
           avg_distance := listMean (matching.map (fun t => t.t_totalamount))
           avg_duration := listMean (matching.map
             (fun t => ((t.t_dropofftime - t.t_pickuptime : Int) : ℚ))) }
  else none

theorem q6_okRows_eq {G : Type} (ctx : Geo G) (db : DB G) :
    okRows (q6 ctx db) = sortBy q6Key
      ((fetch db.zone (fun z => ctx.intersects z.z_boundary ctx.q6Bbox)
        100000).filterMap
        (q6ZoneRow ctx (fetch db.trip (fun _ => true) 10000000))) := by
  simp only [q6]
  split
  · rename_i h
    rw [List.isEmpty_iff.mp h]
    rfl
  · split
    · rename_i h
      rw [List.isEmpty_iff.mp h]
      rw [show List.filterMap (q6ZoneRow ctx [])
          (fetch db.zone (fun z => ctx.intersects z.z_boundary ctx.q6Bbox)
            100000) = [] from
        List.filterMap_eq_nil_iff.mpr (fun z _ => rfl)]
      rfl
    · rfl

/-- Per-building row builder of q8 lines 432-443. -/
def q8BuildingRow {G : Type} (ctx : Geo G) (trips : List (Trip G))
    (b : Building G) : Option Q8Row :=
  let count := (trips.filter
    (fun t => ctx.dist t.t_pickuploc b.b_boundary ≤ 45/10000)).length
  if 0 < count then
    some { b_buildingkey := b.b_buildingkey
           b_name := b.b_name
           nearby_pickup_count := count }
  else none

theorem q8_okRows_eq {G : Type} (ctx : Geo G) (db : DB G) :
    okRows (q8 ctx db) = sortBy q8Key
      ((fetch db.building (fun _ => true) 1000000).filterMap
        (q8BuildingRow ctx (fetch db.trip (fun _ => true) 10000000))) := by
  simp only [q8]
  split
  · rename_i h
    rw [List.isEmpty_iff.mp h]
    rfl
  · split
    · rename_i h
      rw [List.isEmpty_iff.mp h]
      rw [show List.filterMap (q8BuildingRow ctx [])
          (fetch db.building (fun _ => true) 1000000) = [] from
        List.filterMap_eq_nil_iff.mpr (fun b _ => rfl)]
      rfl
    · rfl

theorem q2_length {G : Type} (ctx : Geo G) (db : DB G) :
    (okRows (q2 ctx db)).length = 1 := by
  simp only [q2]
  split
  · rfl
  · rfl

theorem q11_length {G : Type} (ctx : Geo G) (db : DB G) :
    (okRows (q11 ctx db)).length = 1 := by
  simp only [q11]
  split
  · rfl
  · split
    · rfl
    · rfl

theorem q2_isOk {G : Type} (ctx : Geo G) (db : DB G) :
    ∃ rows, (q2 ctx db).1 = Except.ok rows := by
  simp only [q2]
  cases hzf : fetch db.zone (fun z => z.z_name == "Coconino County") 1 with
  | nil => exact ⟨_, rfl⟩
  | cons z zs => exact ⟨_, rfl⟩

theorem q4_isOk {G : Type} (ctx : Geo G) (db : DB G) :
    ∃ rows, (q4 ctx db).1 = Except.ok rows := by
  simp only [q4]
  by_cases h1 : (fetch db.trip (fun _ => true) 10000000).isEmpty
  · rw [if_pos h1]
    exact ⟨_, rfl⟩
  · rw [if_neg h1]
    by_cases h2 : (fetch db.zone (fun _ => true) 100000).isEmpty
    · rw [if_pos h2]
      exact ⟨_, rfl⟩
    · rw [if_neg h2]
      exact ⟨_, rfl⟩

theorem q6_isOk {G : Type} (ctx : Geo G) (db : DB G) :
    ∃ rows, (q6 ctx db).1 = Except.ok rows := by
  simp only [q6]
  by_cases h1 : (fetch db.zone
      (fun z => ctx.intersects z.z_boundary ctx.q6Bbox) 100000).isEmpty
  · rw [if_pos h1]
    exact ⟨_, rfl⟩
  · rw [if_neg h1]
    by_cases h2 : (fetch db.trip (fun _ => true) 10000000).isEmpty
    · rw [if_pos h2]
      exact ⟨_, rfl⟩
    · rw [if_neg h2]
      exact ⟨_, rfl⟩

theorem q8_isOk {G : Type} (ctx : Geo G) (db : DB G) :
    ∃ rows, (q8 ctx db).1 = Except.ok rows := by
  simp only [q8]
  by_cases h1 : (fetch db.building (fun _ => true) 1000000).isEmpty
  · rw [if_pos h1]
    exact ⟨_, rfl⟩
  · rw [if_neg h1]
    by_cases h2 : (fetch db.trip (fun _ => true) 10000000).isEmpty
    · rw [if_pos h2]
      exact ⟨_, rfl⟩
    · rw [if_neg h2]
      exact ⟨_, rfl⟩

theorem q9_isOk {G : Type} (ctx : Geo G) (db : DB G) :
    ∃ rows, (q9 ctx db).1 = Except.ok rows :=
  ⟨_, by rw [q9_def_rows]⟩

theorem q10_isOk {G : Type} (ctx : Geo G) (db : DB G) :
    ∃ rows, (q10 ctx db).1 = Except.ok rows := by
  simp only [q10]
  by_cases h1 : (fetch db.zone (fun _ => true) 1000000).isEmpty
  · rw [if_pos h1]
    exact ⟨_, rfl⟩
  · rw [if_neg h1]
    by_cases h2 : (fetch db.trip (fun _ => true) 10000000).isEmpty
    · rw [if_pos h2]
      exact ⟨_, rfl⟩
    · rw [if_neg h2]
      exact ⟨_, rfl⟩

theorem q11_isOk {G : Type} (ctx : Geo G) (db : DB G) :
    ∃ rows, (q11 ctx db).1 = Except.ok rows := by
  simp only [q11]
  by_cases h1 : (fetch db.zone (fun _ => true) 1000000).isEmpty
  · rw [if_pos h1]
    exact ⟨_, rfl⟩
  · rw [if_neg h1]
    by_cases h2 : (fetch db.trip (fun _ => true) 10000000).isEmpty
    · rw [if_pos h2]
      exact ⟨_, rfl⟩
    · rw [if_neg h2]
      exact ⟨_, rfl⟩

/-- C4: every supported query returns a successful (well-typed, hence
schema-conforming) result on every input — never an error — and on an empty
input collection it returns the declared empty or zero-valued result: empty
row lists for the row-producing queries, single zero-count rows for the
aggregate queries q2 and q11, and for the left-join query q10 one row per
zone with zero trips and null aggregates. -/
theorem supported_queries_empty_input_safe {G : Type} (ctx : Geo G) (db : DB G)
    (hz : db.zone.length ≤ 1000000) (ht : db.trip.length ≤ 10000000) :
    ((∃ rows, (q1 ctx db).1 = Except.ok rows) ∧
     (∃ rows, (q2 ctx db).1 = Except.ok rows) ∧
     (∃ rows, (q3 ctx db).1 = Except.ok rows) ∧
     (∃ rows, (q4 ctx db).1 = Except.ok rows) ∧
     (∃ rows, (q6 ctx db).1 = Except.ok rows) ∧
     (∃ rows, (q8 ctx db).1 = Except.ok rows) ∧
     (∃ rows, (q9 ctx db).1 = Except.ok rows) ∧
     (∃ rows, (q10 ctx db).1 = Except.ok rows) ∧
     (∃ rows, (q11 ctx db).1 = Except.ok rows)) ∧
    (db.trip = [] →
      okRows (q1 ctx db) = [] ∧
      okRows (q2 ctx db) = [{ trip_count_in_coconino_county := 0 }] ∧
      okRows (q3 ctx db) = [] ∧
      okRows (q4 ctx db) = [] ∧
      okRows (q6 ctx db) = [] ∧
      okRows (q8 ctx db) = [] ∧
      okRows (q11 ctx db) = [{ cross_zone_trip_count := 0 }] ∧
      (okRows (q10 ctx db)).length = db.zone.length ∧
      (∀ r ∈ okRows (q10 ctx db),
        r.num_trips = 0 ∧ r.avg_duration = none ∧ r.avg_distance = none)) ∧
    (db.zone = [] →
      okRows (q2 ctx db) = [{ trip_count_in_coconino_county := 0 }] ∧
      okRows (q4 ctx db) = [] ∧
      okRows (q6 ctx db) = [] ∧
      okRows (q10 ctx db) = [] ∧
      okRows (q11 ctx db) = [{ cross_zone_trip_count := 0 }]) ∧
    (db.building = [] →
      okRows (q8 ctx db) = [] ∧
      okRows (q9 ctx db) = []) := by
  refine ⟨⟨⟨_, by rw [q1_def]⟩, q2_isOk ctx db, ⟨_, by rw [q3_def]⟩,
    q4_isOk ctx db, q6_isOk ctx db, q8_isOk ctx db, q9_isOk ctx db,
    q10_isOk ctx db, q11_isOk ctx db⟩, ?_, ?_, ?_⟩
  · intro htr0
    refine ⟨?_, ?_, ?_, ?_, ?_, ?_, ?_, ?_, ?_⟩
    · rw [q1_def, htr0]
      rfl
    · simp only [q2]
      cases hzf : fetch db.zone (fun z => z.z_name == "Coconino County") 1 with
      | nil => rfl
      | cons z zs =>
        rw [htr0]
        rfl
    · rw [q3_def, htr0]
      rfl
    · rw [q4_okRows_eq, htr0]
      rw [show List.filterMap (q4ZoneRow ctx (q4TopTrips
          (fetch ([] : List (Trip G)) (fun _ => true) 10000000)))
          (fetch db.zone (fun _ => true) 100000) = [] from
        List.filterMap_eq_nil_iff.mpr (fun z _ => rfl)]
      rfl
    · rw [q6_okRows_eq, htr0]
      rw [show List.filterMap (q6ZoneRow ctx
          (fetch ([] : List (Trip G)) (fun _ => true) 10000000))
          (fetch db.zone (fun z => ctx.intersects z.z_boundary ctx.q6Bbox)
            100000) = [] from
        List.filterMap_eq_nil_iff.mpr (fun z _ => rfl)]
      rfl
    · rw [q8_okRows_eq, htr0]
      rw [show List.filterMap (q8BuildingRow ctx
          (fetch ([] : List (Trip G)) (fun _ => true) 10000000))
          (fetch db.building (fun _ => true) 1000000) = [] from
        List.filterMap_eq_nil_iff.mpr (fun b _ => rfl)]
      rfl
    · simp only [q11, htr0]
      split
      · rfl
      · exact rfl
    · rw [(q10_okRows_perm ctx db hz ht).length_eq, List.length_map]
    · intro r hr
      rcases List.mem_map.mp
        ((q10_okRows_perm ctx db hz ht).mem_iff.mp hr) with ⟨z, _, hzr⟩
      rw [← hzr, htr0]
      unfold q10RowOf
      rw [if_neg (by simp)]
      exact ⟨rfl, rfl, rfl⟩
  · intro hz0
    refine ⟨?_, ?_, ?_, ?_, ?_⟩
    · simp only [q2, hz0]
      exact rfl
    · rw [q4_okRows_eq, hz0]
      by_cases h1 : (fetch db.trip (fun _ => true) 10000000).isEmpty
      · rfl
      · rfl
    · rw [q6_okRows_eq, hz0]
      rfl
    · simp only [q10, hz0]
      exact rfl
    · simp only [q11, hz0]
      exact rfl
  · intro hb0
    refine ⟨?_, ?_⟩
    · rw [q8_okRows_eq, hb0]
      rfl
    · rw [q9_def_rows, hb0]
      rfl

/-- Empty database used by several witnesses. -/
def emptyDB : DB BoxGeom := { trip := [], zone := [], building := [] }

theorem supported_queries_empty_input_safe_witness :
    okRows (q1 boxGeo emptyDB) = [] ∧
    okRows (q2 boxGeo emptyDB) = [{ trip_count_in_coconino_county := 0 }] ∧
    okRows (q9 boxGeo emptyDB) = [] ∧
    okRows (q11 boxGeo emptyDB) = [{ cross_zone_trip_count := 0 }] := by
  have h := supported_queries_empty_input_safe boxGeo emptyDB
    (by norm_num [emptyDB]) (by norm_num [emptyDB])
  have he := h.2.1 rfl
  exact ⟨he.1, he.2.1, (h.2.2.2 rfl).2, he.2.2.2.2.2.2.1⟩

/-- Shape of the q10 output: a sort of one row per fetched zone, with the
row keeping its zone's key, whichever branch (ordinary or empty-trip) was
taken. -/
theorem q10_shape {G : Type} (ctx : Geo G) (db : DB G) :
    ∃ F : Zone G → Q10Row, (∀ z, (F z).z_zonekey = z.z_zonekey) ∧
      okRows (q10 ctx db) =
        sortBy q10Key ((fetch db.zone (fun _ => true) 1000000).map F) := by
  simp only [q10]
  by_cases h1 : (fetch db.zone (fun _ => true) 1000000).isEmpty
  · refine ⟨fun z => q10RowOf ctx [] z, fun z => rfl, ?_⟩
    rw [if_pos h1, List.isEmpty_iff.mp h1]
    rfl
  · rw [if_neg h1]
    by_cases h2 : (fetch db.trip (fun _ => true) 10000000).isEmpty
    · rw [if_pos h2]
      exact ⟨_, fun z => rfl, rfl⟩
    · rw [if_neg h2]
      refine ⟨q10RowOf ctx (fetch db.trip (fun _ => true) 10000000), ?_, rfl⟩
      intro z
      simp only [q10RowOf]
      split
      · rfl
      · rfl

/-- C7: every supported query's output is sorted by its multi-key comparator,
whose final tie-break is the primary entity key ascending: whenever two rows
tie on all earlier sort keys, the row with the smaller primary key comes
first (for q9 the primary key is the lexicographic building-key pair; for q3
the sort key is the unique month bucket, so the months strictly increase);
in q10 the rows with the null aggregate sort after every valued row; the
single-row aggregate queries q2 and q11 are trivially sorted. -/
theorem query_outputs_sorted_with_primary_key_tiebreak {G : Type}
    (ctx : Geo G) (db : DB G)
    (ht : (db.trip.map (fun t => t.t_tripkey)).Nodup)
    (hz : (db.zone.map (fun z => z.z_zonekey)).Nodup)
    (hb : (db.building.map (fun b => b.b_buildingkey)).Nodup) :
    (List.Sorted (keyLe q1Key) (okRows (q1 ctx db)) ∧
      (okRows (q1 ctx db)).Pairwise (fun a b =>
        a.distance_to_center = b.distance_to_center →
          a.t_tripkey < b.t_tripkey)) ∧
    (okRows (q2 ctx db)).length = 1 ∧
    (List.Sorted (keyLe q3Key) (okRows (q3 ctx db)) ∧
      (okRows (q3 ctx db)).Pairwise (fun a b =>
        a.pickup_month < b.pickup_month)) ∧
    (List.Sorted (keyLe q4Key) (okRows (q4 ctx db)) ∧
      (okRows (q4 ctx db)).Pairwise (fun a b =>
        a.trip_count = b.trip_count → a.z_zonekey < b.z_zonekey)) ∧
    (List.Sorted (keyLe q6Key) (okRows (q6 ctx db)) ∧
      (okRows (q6 ctx db)).Pairwise (fun a b =>
        a.total_pickups = b.total_pickups → a.z_zonekey < b.z_zonekey)) ∧
    (List.Sorted (keyLe q8Key) (okRows (q8 ctx db)) ∧
      (okRows (q8 ctx db)).Pairwise (fun a b =>
        a.nearby_pickup_count = b.nearby_pickup_count →
          a.b_buildingkey < b.b_buildingkey)) ∧
    (List.Sorted (keyLe q9Key) (okRows (q9 ctx db)) ∧
      (okRows (q9 ctx db)).Pairwise (fun a b => a.iou = b.iou →
        toLex (a.building_1, a.building_2) <
          toLex (b.building_1, b.building_2))) ∧
    (List.Sorted (keyLe q10Key) (okRows (q10 ctx db)) ∧
      (okRows (q10 ctx db)).Pairwise (fun a b =>
        a.avg_duration = b.avg_duration → a.z_zonekey < b.z_zonekey) ∧
      (okRows (q10 ctx db)).Pairwise (fun a b =>
        a.avg_duration = none → b.avg_duration = none)) ∧
    (okRows (q11 ctx db)).length = 1 := by
  refine ⟨?_, q2_length ctx db, ?_, ?_, ?_, ?_, ?_, ?_, q11_length ctx db⟩
  · rw [q1_def]
    refine ⟨sortBy_sorted q1Key _, ?_⟩
    exact sortBy_pairwise_tiebreak (fun r : Q1Row => r.distance_to_center)
      (fun r : Q1Row => r.t_tripkey) _
      (nodup_map_map (q1RowOf ctx) (fun t => t.t_tripkey)
        (fun r => r.t_tripkey) (fun t => rfl) _
        (nodup_key_fetch _ db.trip _ _ ht))
  · rw [q3_def]
    have hmnd : (((((fetch db.trip
        (fun t => ctx.dwithin t.t_pickuploc ctx.q3Box (45/1000))
        10000000).map (fun t => ctx.monthOf t.t_pickuptime)).dedup).map
        (q3RowOf ctx (fetch db.trip
          (fun t => ctx.dwithin t.t_pickuploc ctx.q3Box (45/1000))
          10000000))).map (fun r : Q3Row => r.pickup_month)).Nodup := by
      refine nodup_map_map
        (q3RowOf ctx (fetch db.trip
          (fun t => ctx.dwithin t.t_pickuploc ctx.q3Box (45/1000)) 10000000))
        (fun m : Int => m) (fun r : Q3Row => r.pickup_month)
        (fun m => rfl) _ ?_
      simpa using List.nodup_dedup ((fetch db.trip
        (fun t => ctx.dwithin t.t_pickuploc ctx.q3Box (45/1000))
        10000000).map (fun t => ctx.monthOf t.t_pickuptime))
    refine ⟨sortBy_sorted q3Key _, ?_⟩
    have hnd2 := ((sortBy_perm q3Key _).map
      (fun r : Q3Row => r.pickup_month)).nodup_iff.mpr hmnd
    have hpw := List.pairwise_map.mp hnd2
    exact ((sortBy_sorted q3Key _).and hpw).imp
      (fun h => lt_of_le_of_ne h.1 h.2)
  · rw [q4_okRows_eq]
    have hf4 : ∀ (z : Zone G) (r : Q4Row),
        q4ZoneRow ctx (q4TopTrips
          (fetch db.trip (fun _ => true) 10000000)) z = some r →
        r.z_zonekey = z.z_zonekey := by
      intro z r hzr
      simp only [q4ZoneRow] at hzr
      by_cases h : 0 < zoneContainCount ctx z.z_boundary
          ((q4TopTrips (fetch db.trip (fun _ => true) 10000000)).map
            (fun t => t.t_pickuploc))
      · rw [if_pos h] at hzr
        rw [← (Option.some.injEq _ _).mp hzr]
      · rw [if_neg h] at hzr
        exact absurd hzr (by simp)
    have hnd4 := nodup_map_filterMap
      (q4ZoneRow ctx (q4TopTrips (fetch db.trip (fun _ => true) 10000000)))
      (fun z : Zone G => z.z_zonekey) (fun r : Q4Row => r.z_zonekey) hf4
      (fetch db.zone (fun _ => true) 100000)
      (nodup_key_fetch _ db.zone _ _ hz)
    refine ⟨sortBy_sorted q4Key _, ?_⟩
    exact (sortBy_pairwise_tiebreak (fun r : Q4Row => -(r.trip_count : Int))
      (fun r : Q4Row => r.z_zonekey) _ hnd4).imp (fun h hc => h (by rw [hc]))
  · rw [q6_okRows_eq]
    have hf6 : ∀ (z : Zone G) (r : Q6Row),
        q6ZoneRow ctx (fetch db.trip (fun _ => true) 10000000) z = some r →
        r.z_zonekey = z.z_zonekey := by
      intro z r hzr
      simp only [q6ZoneRow] at hzr
      by_cases h : 0 < ((fetch db.trip (fun _ => true) 10000000).filter
          (fun t => ctx.contains z.z_boundary t.t_pickuploc)).length
      · rw [if_pos h] at hzr
        rw [← (Option.some.injEq _ _).mp hzr]
      · rw [if_neg h] at hzr
        exact absurd hzr (by simp)
    have hnd6 := nodup_map_filterMap
      (q6ZoneRow ctx (fetch db.trip (fun _ => true) 10000000))
      (fun z : Zone G => z.z_zonekey) (fun r : Q6Row => r.z_zonekey) hf6
      (fetch db.zone (fun z => ctx.intersects z.z_boundary ctx.q6Bbox) 100000)
      (nodup_key_fetch _ db.zone _ _ hz)
    refine ⟨sortBy_sorted q6Key _, ?_⟩
    exact (sortBy_pairwise_tiebreak (fun r : Q6Row => -(r.total_pickups : Int))
      (fun r : Q6Row => r.z_zonekey) _ hnd6).imp (fun h hc => h (by rw [hc]))
  · rw [q8_okRows_eq]
    have hf8 : ∀ (b : Building G) (r : Q8Row),
        q8BuildingRow ctx (fetch db.trip (fun _ => true) 10000000) b = some r →
        r.b_buildingkey = b.b_buildingkey := by
      intro b r hbr
      simp only [q8BuildingRow] at hbr
      by_cases h : 0 < ((fetch db.trip (fun _ => true) 10000000).filter
          (fun t => ctx.dist t.t_pickuploc b.b_boundary ≤ 45/10000)).length
      · rw [if_pos h] at hbr
        rw [← (Option.some.injEq _ _).mp hbr]
      · rw [if_neg h] at hbr
        exact absurd hbr (by simp)
    have hnd8 := nodup_map_filterMap
      (q8BuildingRow ctx (fetch db.trip (fun _ => true) 10000000))
      (fun b : Building G => b.b_buildingkey)
      (fun r : Q8Row => r.b_buildingkey) hf8
      (fetch db.building (fun _ => true) 1000000)
      (nodup_key_fetch _ db.building _ _ hb)
    refine ⟨sortBy_sorted q8Key _, ?_⟩
    exact (sortBy_pairwise_tiebreak
      (fun r : Q8Row => -(r.nearby_pickup_count : Int))
      (fun r : Q8Row => r.b_buildingkey) _ hnd8).imp (fun h hc => h (by rw [hc]))
  · rw [q9_def_rows]
    have hf9 : ∀ (p : Building G × Building G) (r : Q9Row),
        q9PairRow ctx p = some r →
        toLex (r.building_1, r.building_2) =
          toLex (p.1.b_buildingkey, p.2.b_buildingkey) := by
      intro p r hp
      simp only [q9PairRow] at hp
      by_cases h : ctx.intersects p.1.b_boundary p.2.b_boundary
      · rw [if_pos h] at hp
        rw [← (Option.some.injEq _ _).mp hp]
        exact rfl
      · rw [if_neg h] at hp
        exact absurd hp (by simp)
    have hndB : ((fetch db.building (fun _ => true) 1000000).map
        (fun b => b.b_buildingkey)).Nodup :=
      nodup_key_fetch _ db.building _ _ hb
    have hndp : ((pairsUpper (fetch db.building (fun _ => true) 1000000)).map
        (fun p : Building G × Building G =>
          toLex (p.1.b_buildingkey, p.2.b_buildingkey))).Nodup := by
      have h1 := pairsUpper_nodup_keys (fun b : Building G => b.b_buildingkey)
        (fetch db.building (fun _ => true) 1000000) hndB
      have h2 : (pairsUpper (fetch db.building (fun _ => true) 1000000)).map
          (fun p : Building G × Building G =>
            toLex (p.1.b_buildingkey, p.2.b_buildingkey)) =
          ((pairsUpper (fetch db.building (fun _ => true) 1000000)).map
            (fun p : Building G × Building G =>
              (p.1.b_buildingkey, p.2.b_buildingkey))).map toLex := by
        rw [List.map_map]
        rfl
      rw [h2]
      exact h1.map toLex.injective
    have hnd9 := nodup_map_filterMap (q9PairRow ctx)
      (fun p : Building G × Building G =>
        toLex (p.1.b_buildingkey, p.2.b_buildingkey))
      (fun r : Q9Row => toLex (r.building_1, r.building_2)) hf9
      (pairsUpper (fetch db.building (fun _ => true) 1000000)) hndp
    refine ⟨sortBy_sorted q9Key _, ?_⟩
    exact (sortBy_pairwise_tiebreak (fun r : Q9Row => -r.iou)
      (fun r : Q9Row => toLex (r.building_1, r.building_2)) _ hnd9).imp
      (fun h hiou => h (by rw [hiou]))
  · rcases q10_shape ctx db with ⟨F, hF, heq⟩
    rw [heq]
    have hnd10 := nodup_map_map F (fun z : Zone G => z.z_zonekey)
      (fun r : Q10Row => r.z_zonekey) hF
      (fetch db.zone (fun _ => true) 1000000)
      (nodup_key_fetch _ db.zone _ _ hz)
    refine ⟨sortBy_sorted q10Key _, ?_, ?_⟩
    · exact (sortBy_pairwise_tiebreak
        (fun r : Q10Row => durOrd r.avg_duration)
        (fun r : Q10Row => r.z_zonekey) _ hnd10).imp
        (fun h hdur => h (by rw [hdur]))
    · exact List.Pairwise.imp (fun h ha => q10Key_none_mono h ha)
        (sortBy_sorted q10Key _)

theorem query_outputs_sorted_witness :
    (okRows (q2 boxGeo db3)).length = 1 ∧
    (okRows (q10 boxGeo db3)).Pairwise (fun a b =>
      a.avg_duration = none → b.avg_duration = none) := by
  have h := query_outputs_sorted_with_primary_key_tiebreak boxGeo db3
    (by decide) (by decide) (by decide)
  exact ⟨h.2.1, h.2.2.2.2.2.2.2.1.2.2⟩
